import Mathlib

/-!
Verification of the agentic GraphRAG orchestration loop
(`src/graph/nodes.py`, `src/graph/workflow.py`, `src/graph/state.py`,
`src/main.py`).

Modelling conventions:
* Python strings are modelled as `List Char` (named `Str`): the Lean core
  `String` operations are not kernel-reducible, while list functions are.
  `str` converts a Lean string literal to the model type.
* External collaborators (OpenAI embedding/LLM clients, the Neo4j driver,
  the Neo4j vector index) are modelled as an `Oracles` record of pure
  functions returning `Except Err _`; a `.error` value models a raised
  Python exception, which the embedded node functions either catch
  (mirroring `try/except` in the source) or propagate (no `try/except`).
  The store-query oracle takes the index of the call within a run, so a
  given query text may fail on one execution and succeed on a later one,
  as a real store can.
* The LangGraph state dict `GraphState` becomes the structure `GState`;
  keys read with `.get(key, default)` in the source are total fields whose
  initial value is the default (this matches the initial state built in
  `src/main.py` lines 151-170, which sets every key).
* Python float fields (`confidence`, embedding vectors) are modelled over
  `ℚ`; no claim depends on float rounding.
* `print` calls are side effects with no state impact and are dropped.
-/

/-- Python strings, modelled as lists of characters. -/
abbrev Str := List Char

/-- Convert a Lean string literal to the model string type. -/
def str (s : String) : Str := s.data

/-- The single-quote character (written via its code point). -/
def squo : Str := [Char.ofNat 39]

/-- Python `str(n)` for a natural number. -/
def natStr (n : Nat) : Str := (Nat.repr n).data

/-- Python `s.lower()` (per-character lowering; the model only ever
compares ASCII keys and phrases). -/
def pyLower (s : Str) : Str := s.map Char.toLower

/-- Python `pat in s` (substring containment), for the non-empty patterns
used by the source. -/
def containsSub : Str → Str → Bool
  | [], pat => pat.isEmpty
  | c :: rest, pat => pat.isPrefixOf (c :: rest) || containsSub rest pat

/-- Python `s.endswith(suffix)`. -/
def endsW (s suffix : Str) : Bool := suffix.isSuffixOf s

/-- Fuel-driven worker for `pyReplace` (fuel is the length of the scanned
string, so the scan is exact; structural recursion keeps it
kernel-reducible). -/
def pyReplaceGo (pat rep : Str) : Nat → Str → Str
  | 0, s => s
  | _ + 1, [] => []
  | fuel + 1, c :: rest =>
    if pat ≠ [] ∧ pat.isPrefixOf (c :: rest) then
      rep ++ pyReplaceGo pat rep fuel ((c :: rest).drop pat.length)
    else
      c :: pyReplaceGo pat rep fuel rest

/-- Python `s.replace(pat, rep)`: replace every non-overlapping occurrence,
scanning left to right. -/
def pyReplace (s pat rep : Str) : Str := pyReplaceGo pat rep s.length s

/-- Python `s.strip()`. -/
def pyTrim (s : Str) : Str :=
  ((s.dropWhile Char.isWhitespace).reverse.dropWhile Char.isWhitespace).reverse

/-- Python `s.split(sep)` for a single-character separator. -/
def splitOnChar (sep : Char) : Str → List Str
  | [] => [[]]
  | c :: rest =>
    let r := splitOnChar sep rest
    if c = sep then [] :: r
    else
      match r with
      | [] => [[c]]
      | h :: t => (c :: h) :: t

/-- Python `key.split(".")[-1]`. -/
def lastDotComponent (k : Str) : Str := (splitOnChar (Char.ofNat 46) k).getLastD []

/-- Scalar / nested values of a Neo4j result record (`Dict[str, Any]` in
`src/graph/state.py`). -/
inductive Val where
  | str (s : Str)
  | int (n : Int)
  | dict (d : List (Str × Val))
  | list (l : List Val)

/-- Python dict lookup (first binding wins; Python dicts have unique keys). -/
def getKey? (d : List (Str × Val)) (k : Str) : Option Val :=
  (d.find? (fun kv => kv.1 = k)).map Prod.snd

/-- Python dict assignment `d[k] = v`: overwrite in place, else append
(Python dicts keep insertion order). -/
def setKey : List (Str × Val) → Str → Val → List (Str × Val)
  | [], k, v => [(k, v)]
  | (k', v') :: rest, k, v =>
    if k' = k then (k, v) :: rest else (k', v') :: setKey rest k v

/-- A vector-search hit (`neo4j_vector_service.similarity_search` result);
only its `id` field is read (`src/graph/nodes.py` line 117). -/
structure Hit where
  id : Str

/-- A subgraph node as rendered by `build_subgraph_context`; property
values are modelled after the `str(v)` conversion the source applies. -/
structure SGNode where
  id : Str
  label : Str
  properties : List (Str × Str)

/-- A subgraph relationship (`start`/`type`/`end` keys in the source). -/
structure SGRel where
  rstart : Str
  rtype : Str
  rend : Str

/-- The dict returned by `neo4j_service.expand_subgraph`; the source
guards on the presence of the `"nodes"`/`"relationships"` keys
(`src/graph/nodes.py` lines 124-127), so both are `Option`s here. -/
structure Subgraph where
  nodes? : Option (List SGNode)
  relationships? : Option (List SGRel)

/-- Python `subgraph.get("nodes", [])`. -/
def Subgraph.nodesD (g : Subgraph) : List SGNode := g.nodes?.getD []

/-- Python `subgraph.get("relationships", [])`. -/
def Subgraph.relationshipsD (g : Subgraph) : List SGRel := g.relationships?.getD []

/-- Exception payload (`str(e)` in the source). -/
abbrev Err := Str

/-- The LangGraph state dict (`GraphState`, `src/graph/state.py`). -/
structure GState where
  question : Str
  cypher_query : Str
  neo4j_results : List Val
  final_answer : Str
  error : Str
  query_embedding : List ℚ
  similar_nodes : List Hit
  subgraph : Subgraph
  context : Str
  plan : Str
  messages : List (Str × Str)
  step : Nat
  max_steps : Nat
  decision : Str
  confidence : ℚ
  session_id : Option Str
  conversation_history : Str
  refinement_count : Nat

/-- External collaborators of the loop, as pure oracles.  `execQuery`
additionally receives the index of the store call within the run. -/
structure Oracles where
  embed : Str → Except Err (List ℚ)
  vecCount : Except Err Nat
  fetchAllNodes : Except Err (List SGNode)
  upsertNodes : List SGNode → Except Err Unit
  simSearch : Str → Nat → Except Err (List Hit)
  expand : List Str → Nat → Except Err Subgraph
  execQuery : Nat → Str → Except Err (List Val)
  genCypher : Str → Str → Except Err Str
  interpret : Str → List Val → Except Err Str

/-- The fixed schema description (`SCHEMA`, `src/graph/nodes.py` lines
17-42). -/
def SCHEMA : Str :=
  str "\nNeo4j Healthcare Graph Schema Summary\n\nNode Types\n" ++
  str "- Patient(id, firstName, lastName, birthDate, deathDate, gender, race, ethnicity, marital, city, state, county, zip, income)\n" ++
  str "- Encounter(id, start, stop, encounterClass, code, description, baseCost, totalCost, reasonCode, reasonDescription)\n" ++
  str "- Condition(code, description, system)\n" ++
  str "- Procedure(code, description, system)\n" ++
  str "- Observation(code, description, category)\n\nRelationship Types\n" ++
  str "- (Patient)-[:HAD_ENCOUNTER]->(Encounter)\n" ++
  str "- (Patient)-[:HAS_CONDITION \x7bstart, stop\x7d]->(Condition)\n" ++
  str "- (Encounter)-[:DIAGNOSED]->(Condition)\n" ++
  str "- (Patient)-[:UNDERWENT]->(Procedure)\n" ++
  str "- (Encounter)-[:HAD_PROCEDURE \x7bstart, stop, baseCost, reasonCode, reasonDescription\x7d]->(Procedure)\n" ++
  str "- (Patient)-[:HAS_OBSERVATION]->(Observation)\n" ++
  str "- (Encounter)-[:RECORDED_OBSERVATION \x7bdate, value, units, type\x7d]->(Observation)\n\nCommon Query Patterns Examples\n" ++
  str "- Patient journey timeline via HAD_ENCOUNTER, DIAGNOSED, HAD_PROCEDURE, RECORDED_OBSERVATION\n" ++
  str "- Co-occurring patient conditions\n" ++
  str "- Condition to procedure co-occurrence\n" ++
  str "- High-risk patients (>=3 conditions)\n" ++
  str "- Utilization analysis (encounter counts, totalCost, avg cost)\n"

/-- Embeds `_append_message` (`src/graph/nodes.py` lines 397-400). -/
def append_message (s : GState) (role content : Str) : GState :=
  { s with messages := s.messages ++ [(role, content)] }

/-- The synthesizer empty-result template (`src/graph/nodes.py` lines
337-343): a fixed function of the question only. -/
def noResultsTemplate (question : Str) : Str :=
  str "I couldn" ++ squo ++ str "t find any information matching your question: " ++
  squo ++ question ++ squo ++ str "\n\nThis might mean:\n" ++
  str "- No patients or records match the specific criteria you" ++ squo ++
  str "re looking for\n" ++
  str "- The search terms might need to be adjusted (e.g., try broader terms)\n" ++
  str "- The data might not be available in the database"

/-- The forced-termination empty-result template built by `planner_decide`
when the step budget is exceeded (`src/graph/nodes.py` line 489). -/
def forcedNoMatchTemplate (question : Str) : Str :=
  str "I couldn" ++ squo ++ str "t find any information matching your question: " ++
  squo ++ question ++ squo ++ str ". No records match the specific criteria."

/-- The refinement prompt for a failed or empty execution
(`src/graph/nodes.py` lines 418-439). -/
def refinementPromptFail (error cypher question : Str) : Str :=
  (if error ≠ [] then str "Error: " ++ error ++ str "\n\n" else []) ++
  str "The Cypher query failed or returned no results:\n" ++ cypher ++ str "\n\n" ++
  str "Original question: " ++ question ++ str "\n\n" ++
  str "Analyze why this query might have failed and suggest an improved query " ++
  str "that is more likely to return results. Consider:\n" ++
  str "- Syntax errors: After WITH/aggregation, you cannot reference variables from before the WITH clause\n" ++
  str "- CRITICAL: When using multiple WITH clauses, you must include ALL variables you need in each WITH\n" ++
  str "- If you use collect() or count() on a variable, include it in WITH: WITH p, count(c) as conditionCount, collect(c.description) as conditions\n" ++
  str "- Example CORRECT: MATCH (p:Patient)-[:HAS_CONDITION]->(c:Condition) WITH p, count(c) as conditionCount, collect(c.description) as conditions WHERE conditionCount > 1 RETURN p.firstName, p.lastName, conditions\n" ++
  str "- Example WRONG: WITH p, count(c) as conditionCount WHERE conditionCount > 1 RETURN collect(c.description) (c is not available after WITH)\n" ++
  str "- CRITICAL FIX FOR " ++ squo ++ str "Variable c not defined" ++ squo ++
  str ": Move collect(c.description) INTO the WITH clause, not the RETURN clause\n" ++
  str "- If error mentions " ++ squo ++ str "Variable `c` not defined" ++ squo ++
  str ", change: WITH p, count(c) as count ... RETURN collect(c.description) TO: WITH p, count(c) as count, collect(c.description) as descriptions ... RETURN descriptions\n" ++
  str "- For multiple conditions: MATCH (p:Patient)-[:HAS_CONDITION]->(c:Condition) WITH p, count(c) as conditionCount WHERE conditionCount > 1 RETURN p\n" ++
  str "- For expensive treatments: Check Encounter.totalCost or Procedure baseCost\n" ++
  str "- TEXT MATCHING: Use CONTAINS for partial text matching, not exact match \x7bdescription: \"value\"\x7d\n" ++
  str "- Example: WHERE c.description CONTAINS " ++ squo ++ str "Diabetes" ++ squo ++
  str " (not \x7bdescription: \"Diabetes\"\x7d)\n" ++
  str "- Use case-insensitive matching: toLower(c.description) CONTAINS toLower(" ++
  squo ++ str "diabetes" ++ squo ++ str ")\n" ++
  str "- Relaxing WHERE constraints if needed\n" ++
  str "- Expanding relationship patterns\n"

/-- The refinement prompt for an oversized result set
(`src/graph/nodes.py` lines 448-453). -/
def refinementPromptNarrow (n : Nat) (cypher question : Str) : Str :=
  str "The query returned " ++ natStr n ++ str " results, which is too many.\n" ++
  str "Original query: " ++ cypher ++ str "\n" ++
  str "Question: " ++ question ++ str "\n\n" ++
  str "Suggest a more specific query with additional filters or constraints."

/-- Embeds `execute_neo4j_query` (`src/graph/nodes.py` lines 53-68).  The whole
body is wrapped in `try/except`, so it never raises: a store failure only
records `str(e)` in `error`.  On success it only writes `neo4j_results`.
`k` is the index of the next store call in this run. -/
def execute_neo4j_query (O : Oracles) (k : Nat) (s : GState) : GState × Nat :=
  let cypher := s.cypher_query
  if cypher = [] then (s, k)
  else
    match O.execQuery k cypher with
    | .ok results => ({ s with neo4j_results := results }, k + 1)
    | .error e => ({ s with error := e }, k + 1)

/-- Embeds `ensure_vector_index` (`src/graph/nodes.py` lines 85-95): bootstrap
effects happen on the external index only; the state is returned
unchanged, and every internal failure is caught. -/
def ensure_vector_index (O : Oracles) (s : GState) : GState :=
  match O.vecCount with
  | .error _ => s
  | .ok count =>
    if count = 0 then
      match O.fetchAllNodes with
      | .error _ => s
      | .ok nodes =>
        match O.upsertNodes (nodes.take 10) with
        | _ => s
    else s

/-- Embeds `embed_question` (`src/graph/nodes.py` lines 98-102).  There is no
`try/except` here: an embedding-client failure propagates. -/
def embed_question (O : Oracles) (s : GState) : Except Err GState := do
  let embedding ← O.embed s.question
  pure { s with query_embedding := embedding }

/-- Embeds `similarity_search` (`src/graph/nodes.py` lines 105-113): a vector
search failure is caught and degrades to `similar_nodes = []`. -/
def similarity_search (O : Oracles) (s : GState) : GState :=
  match O.simSearch s.question 3 with
  | .ok hits => { s with similar_nodes := hits }
  | .error _ => { s with similar_nodes := [] }

/-- Embeds `expand_traversal` (`src/graph/nodes.py` lines 116-129): depth-1
expansion around the similar-node ids, truncated to 20 nodes and 30
relationships when the store returned those keys.  The store call is not
wrapped in `try/except`, so its failure propagates. -/
def expand_traversal (O : Oracles) (s : GState) : Except Err GState :=
  let node_ids := s.similar_nodes.map Hit.id
  if node_ids = [] then
    pure { s with subgraph := ⟨some [], some []⟩ }
  else do
    let g ← O.expand node_ids 1
    let g := match g.nodes? with
      | some ns => { g with nodes? := some (ns.take 20) }
      | none => g
    let g := match g.relationships? with
      | some rs => { g with relationships? := some (rs.take 30) }
      | none => g
    pure { s with subgraph := g }

/-- One node line of the context (`src/graph/nodes.py` lines 138-144):
up to 3 properties, each value truncated to 30 characters. -/
def nodeLine (n : SGNode) : Str :=
  let kv_items := n.properties.take 3
  let kv := List.intercalate (str ", ")
    (kv_items.map (fun p => p.1 ++ str "=" ++ p.2.take 30))
  str "- (" ++ n.id ++ str ":" ++ n.label ++ str " \x7b " ++ kv ++ str " \x7d)"

/-- One relationship line of the context (`src/graph/nodes.py` line 149). -/
def relLine (r : SGRel) : Str :=
  str "- (" ++ r.rstart ++ str ")-[:" ++ r.rtype ++ str "]->(" ++ r.rend ++ str ")"

/-- Embeds `build_subgraph_context` (`src/graph/nodes.py` lines 132-155): renders
at most 20 nodes and 30 relationships and truncates the joined text to
4000 characters plus a fixed `"... (truncated)"` marker. -/
def build_subgraph_context (s : GState) : GState :=
  let nodes := s.subgraph.nodesD.take 20
  let relationships := s.subgraph.relationshipsD.take 30
  let parts := str "NODES:" :: nodes.map nodeLine ++
    str "RELATIONSHIPS:" :: relationships.map relLine
  let context := List.intercalate (str "\n") parts
  let context :=
    if 4000 < context.length then context.take 4000 ++ str "... (truncated)"
    else context
  { s with context := context }

/-- Embeds `retriever_agent` (`src/graph/nodes.py` lines 177-186): the retrieval
pipeline run in sequence; the steps without their own `try/except`
(`embed_question`, `expand_traversal`) propagate failures. -/
def retriever_agent (O : Oracles) (s : GState) : Except Err GState := do
  let s := ensure_vector_index O s
  let s ← embed_question O s
  let s := similarity_search O s
  let s ← expand_traversal O s
  pure (build_subgraph_context s)

/-- Embeds `cypher_agent` (`src/graph/nodes.py` lines 189-206): Cypher generation
from question (plus conversation history) and augmented schema.  The
model call is not wrapped, so its failure propagates. -/
def cypher_agent (O : Oracles) (s : GState) : Except Err GState := do
  let question := s.question
  let context := s.context
  let conversation_history := s.conversation_history
  let question_with_history :=
    if conversation_history ≠ [] then
      str "Previous conversation:\n" ++ conversation_history ++
      str "\n\nCurrent question: " ++ question
    else question
  let augmented_schema := SCHEMA ++ str "\n\nContext:\n" ++ context
  let cypher_query ← O.genCypher question_with_history augmented_schema
  pure { s with cypher_query := cypher_query }

/-- The aggregate-detection keywords (`src/graph/nodes.py` line 235). -/
def aggregateKeywords : List Str :=
  [str "count", str "number", str "total", str "sum", str "avg",
   str "average", str "min", str "max", str "frequency"]

/-- Internal fields stripped from records (`src/graph/nodes.py` line 252). -/
def isInternalKey (k : Str) : Bool := k = str "embedding" || k = str "_text_repr"

/-- The common-field extraction applied to a nested node value
(`src/graph/nodes.py` lines 285-300 and 305-319): copy
`firstName`/`lastName`/`description`/`id`/`start`/`stop` when present, and
`reasonDescription` as `reason`. -/
def pickNodeFields (nv : List (Str × Val)) (cr : List (Str × Val)) :
    List (Str × Val) :=
  let cr := match getKey? nv (str "firstName") with
    | some v => setKey cr (str "firstName") v | none => cr
  let cr := match getKey? nv (str "lastName") with
    | some v => setKey cr (str "lastName") v | none => cr
  let cr := match getKey? nv (str "description") with
    | some v => setKey cr (str "description") v | none => cr
  let cr := match getKey? nv (str "id") with
    | some v => setKey cr (str "id") v | none => cr
  let cr := match getKey? nv (str "start") with
    | some v => setKey cr (str "start") v | none => cr
  let cr := match getKey? nv (str "stop") with
    | some v => setKey cr (str "stop") v | none => cr
  match getKey? nv (str "reasonDescription") with
  | some v => setKey cr (str "reason") v | none => cr

/-- The prefixed-property pass (`src/graph/nodes.py` lines 267-278):
flatten `alias.property` keys into canonical names. -/
def prefixedPass (r : List (Str × Val)) (cr : List (Str × Val)) :
    List (Str × Val) :=
  r.foldl (fun cr kv =>
    let k := kv.1
    let v := kv.2
    if endsW k (str ".firstName") || endsW k (str ".lastName") then
      setKey cr (lastDotComponent k) v
    else if endsW k (str ".description") then
      setKey cr (str "description") v
    else if k = str "id" || endsW k (str ".id") then
      setKey cr (str "id") v
    else if endsW k (str ".start") || endsW k (str ".stop") then
      setKey cr (lastDotComponent k) v
    else if endsW k (str ".reasonDescription") then
      setKey cr (str "reason") v
    else cr) cr

/-- The nested-node fallback (`src/graph/nodes.py` lines 281-319): when
nothing was extracted yet, unwrap single or multiple nested node dicts. -/
def nestedPass (r : List (Str × Val)) (cr : List (Str × Val)) :
    List (Str × Val) :=
  if r.length = 1 then
    match r.head? with
    | some (_, Val.dict nv) => pickNodeFields nv cr
    | _ => cr
  else if 1 < r.length then
    r.foldl (fun cr kv =>
      match kv.2 with
      | Val.dict nv => pickNodeFields nv cr
      | _ => cr) cr
  else cr

/-- Python `str(v)[:50]` for a scalar, or `type(v).__name__` for a nested
dict/list (`src/graph/nodes.py` line 328). -/
def minimalVal : Val → Val
  | Val.str s => Val.str (s.take 50)
  | Val.int n => Val.str ((Int.repr n).data.take 50)
  | Val.dict _ => Val.str (str "dict")
  | Val.list _ => Val.str (str "list")

/-- Normalization of one raw record (`src/graph/nodes.py` lines 224-331):
aggregate records pass through unchanged; entity records are unwrapped,
stripped of internal fields and flattened; `none` means the record is
dropped. -/
def cleanRecord (rv : Val) : Option Val :=
  match rv with
  | Val.dict d =>
    let has_patient_fields := d.any (fun kv =>
      containsSub (pyLower kv.1) (str "firstname") ||
      containsSub (pyLower kv.1) (str "lastname"))
    let has_aggregate := d.any (fun kv =>
      aggregateKeywords.any (fun w => containsSub (pyLower kv.1) w))
    if has_aggregate && !has_patient_fields then
      some (Val.dict d)
    else
      let r1 : Val :=
        if d.length = 1 then ((d.head?.map Prod.snd).getD (Val.dict d))
        else Val.dict d
      match r1 with
      | Val.dict d1 =>
        let r := d1.filter (fun kv => !isInternalKey kv.1)
        let cr : List (Str × Val) := []
        let cr := match getKey? r (str "firstName") with
          | some v => setKey cr (str "firstName") v | none => cr
        let cr := match getKey? r (str "lastName") with
          | some v => setKey cr (str "lastName") v | none => cr
        let cr := prefixedPass r cr
        let cr := if cr.isEmpty && !r.isEmpty then nestedPass r cr else cr
        if !cr.isEmpty then some (Val.dict cr)
        else if !r.isEmpty then
          let minimal := (r.take 5).map (fun kv => (kv.1, minimalVal kv.2))
          if !minimal.isEmpty then some (Val.dict minimal) else none
        else none
      | _ => none
  | _ => none

/-- The banned-vocabulary denylist (`src/graph/nodes.py` lines 366-372). -/
def bannedPhrases : List Str :=
  [str "graph context", str "graph", str "cypher query", str "cypher",
   str "database query", str "query results", str "the query", str "nodes",
   str "relationships", str "neo4j", str "based on the",
   str "according to the", str "the data shows", str "the information shows",
   str "in the context", str "from the context", str "to identify",
   str "we need to analyze", str "available information"]

/-- The targeted substitutions for one matched phrase
(`src/graph/nodes.py` lines 377-385). -/
def applyPhraseRepl (phrase answer : Str) : Str :=
  if phrase = str "graph context" then
    pyReplace (pyReplace answer (str "graph context") (str "system"))
      (str "Graph context") (str "system")
  else if phrase = str "cypher query" ∨ phrase = str "cypher" then
    let a := pyReplace (pyReplace answer (str "cypher query") (str "system"))
      (str "Cypher query") (str "system")
    pyReplace (pyReplace a (str "cypher") []) (str "Cypher") []
  else if phrase = str "the query" ∨ phrase = str "query results" ∨
      phrase = str "database query" then
    let a := pyReplace (pyReplace answer (str "query results") (str "results"))
      (str "Query results") (str "Results")
    pyReplace (pyReplace a (str "the query") (str "the search"))
      (str "The query") (str "The search")
  else answer

/-- The denylist scan (`src/graph/nodes.py` lines 373-390): `answer_lower`
is the lowercase of the ORIGINAL draft (computed once, before any
substitution); when a matched phrase leaves at least two of the first 7
phrases in the original draft, the answer is regenerated once via the
model (unwrapped call: its failure propagates) and the loop breaks. -/
def bannedLoop (O : Oracles) (question : Str) (limited_results : List Val)
    (answer_lower : Str) : List Str → Str → Except Err Str
  | [], answer => pure answer
  | phrase :: rest, answer =>
    if containsSub answer_lower phrase then
      let answer := applyPhraseRepl phrase answer
      if 2 ≤ ((bannedPhrases.take 7).filter
          (fun p => containsSub answer_lower p)).length then
        O.interpret question limited_results
      else bannedLoop O question limited_results answer_lower rest answer
    else bannedLoop O question limited_results answer_lower rest answer

/-- Embeds `synthesizer_agent` (`src/graph/nodes.py` lines 209-394).  With empty
`neo4j_results` it returns the fixed template without touching any
oracle; otherwise it drafts via the model (that call is wrapped in
`try/except`), enforces non-triviality, and runs the denylist scan. -/
def synthesizer_agent (O : Oracles) (s : GState) : Except Err GState :=
  let question := s.question
  let context := s.context
  let results := s.neo4j_results
  let limited_results := if 200 < results.length then results.take 200 else results
  let clean_results := limited_results.filterMap cleanRecord
  let _truncated_context :=
    if 3000 < context.length then context.take 3000 else context
  if results.length = 0 then
    pure { s with final_answer := noResultsTemplate question }
  else do
    let answer :=
      match O.interpret question clean_results with
      | .ok a => a
      | .error e =>
        str "I found " ++ natStr results.length ++
        str " matching records but encountered an error interpreting them: " ++ e
    let answer :=
      if answer = [] ∨ (pyTrim answer).length < 10 then
        str "I found " ++ natStr results.length ++
        str " matching records, but I" ++ squo ++
        str "m having trouble summarizing them. Please try rephrasing your question or asking for more specific information."
      else answer
    let fa ← bannedLoop O question limited_results (pyLower answer)
      bannedPhrases answer
    pure { s with final_answer := fa }

/-- Embeds `refine_query` (`src/graph/nodes.py` lines 403-462): with no query it
is a no-op; on error or empty results it regenerates the query and resets
`neo4j_results` and `error`; on an oversized result set (reached only
with `error` already empty) it regenerates the query and resets
`neo4j_results`.  The model call is unwrapped, so its failure propagates. -/
def refine_query (O : Oracles) (s : GState) : Except Err GState :=
  let question := s.question
  let cypher := s.cypher_query
  let results := s.neo4j_results
  let error := s.error
  if cypher = [] then pure s
  else if error ≠ [] ∨ results.length = 0 then do
    let refined ← O.genCypher (refinementPromptFail error cypher question) SCHEMA
    let s := { s with cypher_query := refined, neo4j_results := [], error := [] }
    pure (append_message s (str "refiner") (str "Refined query: " ++ refined))
  else if 100 < results.length then do
    let refined ←
      O.genCypher (refinementPromptNarrow results.length cypher question) SCHEMA
    let s := { s with cypher_query := refined, neo4j_results := [] }
    pure (append_message s (str "refiner")
      (str "Refined query for specificity: " ++ refined))
  else pure s

/-- The heuristic routing policy of `planner_decide`
(`src/graph/nodes.py` lines 508-542): given the (already incremented)
state, return the possibly updated state (`refinement_count` bumps on the
two refine branches), the decision, and the rationale text. -/
def planner_policy (s : GState) : GState × Str × Str :=
  let context := s.context
  let cypher := s.cypher_query
  let results := s.neo4j_results
  let refinement_count := s.refinement_count
  let error := s.error
  if context = [] then
    (s, str "retrieve",
     str "No graph context yet; retrieve similar nodes and expand subgraph.")
  else if cypher = [] then
    (s, str "query", str "Have context but no Cypher; generate Cypher next.")
  else if cypher ≠ [] ∧ results.length = 0 then
    if refinement_count < 1 ∧ error ≠ [] then
      ({ s with refinement_count := refinement_count + 1 }, str "refine",
       str "Have Cypher but error occurred; try refining the query.")
    else
      (s, str "execute", str "Have Cypher but no results; execute query first.")
  else if 100 < results.length then
    if refinement_count = 0 then
      ({ s with refinement_count := refinement_count + 1 }, str "refine",
       str "Too many results; refine query to be more specific.")
    else
      (s, str "answer",
       str "Have results (already refined once); synthesize answer.")
  else if cypher ≠ [] ∧ 0 < results.length then
    (s, str "answer", str "Have context and results; synthesize final answer.")
  else
    (s, str "answer", str "Have context and results; synthesize final answer.")

/-- The forced-termination answer fallback of `planner_decide`
(`src/graph/nodes.py` lines 487-502), applied to the state that already
carries the `"end"` decision and budget message.  `question` and
`results` are the values read before the budget check; the fallback model
call sits in a bare `except`, so it cannot raise. -/
def planner_budget_answer (O : Oracles) (question : Str) (results : List Val)
    (s : GState) : GState :=
  -- `results is not None` always holds in the model (see GState notes)
  if s.final_answer = [] then
    if results.length = 0 then
      { s with final_answer := forcedNoMatchTemplate question }
    else
      let limited_results :=
        if 50 < results.length then results.take 50 else results
      let clean_results := limited_results.filterMap (fun r =>
        match r with
        | Val.dict d => some (Val.dict (d.filter (fun kv => !isInternalKey kv.1)))
        | _ => none)
      match O.interpret question clean_results with
      | .ok answer =>
        { s with final_answer := if answer ≠ [] then answer
            else str "I found " ++ natStr results.length ++ str " matching records." }
      | .error _ =>
        { s with final_answer := (str "I found " ++ natStr results.length ++
            str " matching records but couldn" ++ squo ++
            str "t synthesize a complete answer.") }
  else s

/-- Embeds `planner_decide` (`src/graph/nodes.py` lines 465-552): increments the
step counter; past the budget it forces `decision = "end"` and fills in a
best-effort answer via `planner_budget_answer`; otherwise it applies
`planner_policy` and records decision, confidence and trace messages. -/
def planner_decide (O : Oracles) (s : GState) : GState :=
  let step := s.step + 1
  let s := { s with step := step }
  let max_steps := s.max_steps
  let question := s.question
  let context := s.context
  let results := s.neo4j_results
  if max_steps < step then
    let s := { s with decision := str "end", confidence := 1/2 }
    let s := append_message s (str "planner")
      (str "Step budget exceeded (" ++ natStr step ++ str ">" ++
       natStr max_steps ++ str "). Ending.")
    planner_budget_answer O question results s
  else
    let p := planner_policy s
    let s := { p.1 with decision := p.2.1, confidence := 7/10 }
    let s := append_message s (str "planner")
      (str "Decision: " ++ p.2.1 ++ str ". Rationale: " ++ p.2.2)
    let s := append_message s (str "user") question
    if context ≠ [] then append_message s (str "context") (context.take 1000)
    else s

/-- Embeds `router_next_action` (`src/graph/nodes.py` lines 555-566): maps the
planner decision to the next workflow node, defaulting to the
synthesizer. -/
def router_next_action (s : GState) : Str :=
  let decision := s.decision
  if decision = str "retrieve" then str "retriever_agent"
  else if decision = str "query" then str "cypher_agent"
  else if decision = str "refine" then str "refine_query"
  else if decision = str "execute" then str "execute_query"
  else if decision = str "answer" then str "synthesizer_agent"
  else if decision = str "end" then str "END"
  else str "synthesizer_agent"

/-- Outcome of driving the compiled workflow with a given amount of fuel
(each unit of fuel is one planner iteration). -/
inductive RunOutcome where
  | done (s : GState)
  | raised (e : Err)
  | fuelOut (s : GState)

/-- Returns `true` exactly on the fuel-exhaustion artifact. -/
def RunOutcome.isFuelOut : RunOutcome → Bool
  | .fuelOut _ => true
  | _ => false

/-- The final state of a completed run. -/
def RunOutcome.finalState? : RunOutcome → Option GState
  | .done s => some s
  | _ => none

/-- The final answer of a completed run. -/
def RunOutcome.finalAnswer? : RunOutcome → Option Str
  | .done s => some s.final_answer
  | _ => none

/-- The orchestration loop compiled by `create_workflow`
(`src/graph/workflow.py` lines 44-64): entry at `planner_decide`,
conditional dispatch via `router_next_action`, every action looping back
to the planner, and the synthesizer (or an `"end"` decision) terminating
the run.  `k` counts store calls; the returned list records every state
the run passes through, tagged `true` for planner outputs and `false`
for action outputs. -/
def runAux (O : Oracles) : Nat → GState → Nat → RunOutcome × List (Bool × GState)
  | 0, s, _ => (.fuelOut s, [])
  | fuel + 1, s, k =>
    let s1 := planner_decide O s
    let next := router_next_action s1
    if next = str "END" then (.done s1, [(true, s1)])
    else if next = str "retriever_agent" then
      match retriever_agent O s1 with
      | .ok s2 =>
        let r := runAux O fuel s2 k
        (r.1, (true, s1) :: (false, s2) :: r.2)
      | .error e => (.raised e, [(true, s1)])
    else if next = str "cypher_agent" then
      match cypher_agent O s1 with
      | .ok s2 =>
        let r := runAux O fuel s2 k
        (r.1, (true, s1) :: (false, s2) :: r.2)
      | .error e => (.raised e, [(true, s1)])
    else if next = str "refine_query" then
      match refine_query O s1 with
      | .ok s2 =>
        let r := runAux O fuel s2 k
        (r.1, (true, s1) :: (false, s2) :: r.2)
      | .error e => (.raised e, [(true, s1)])
    else if next = str "execute_query" then
      let p := execute_neo4j_query O k s1
      let r := runAux O fuel p.1 p.2
      (r.1, (true, s1) :: (false, p.1) :: r.2)
    else
      match synthesizer_agent O s1 with
      | .ok s2 => (.done s2, [(true, s1), (false, s2)])
      | .error e => (.raised e, [(true, s1)])

/-- One full run (`graph.invoke(initial_state)` in `ask_question`),
starting the store-call counter at zero. -/
def runWorkflow (O : Oracles) (fuel : Nat) (s : GState) :
    RunOutcome × List (Bool × GState) :=
  runAux O fuel s 0

/-- The planner decision sequence of a run. -/
def decisionSeq (tr : List (Bool × GState)) : List Str :=
  (tr.filter Prod.fst).map (fun p => p.2.decision)

/-- The initial state built by `ask_question` (`src/main.py` lines
151-170). -/
def mkInitialState (question : Str) (session_id : Option Str)
    (conversation_history : Str) : GState :=
  { question := question
    cypher_query := []
    neo4j_results := []
    final_answer := []
    error := []
    query_embedding := []
    similar_nodes := []
    subgraph := ⟨some [], some []⟩
    context := []
    plan := []
    messages := []
    step := 0
    max_steps := 6
    decision := []
    confidence := 0
    session_id := session_id
    conversation_history := conversation_history
    refinement_count := 0 }

/-- The fields of the `/ask` response built from the run result
(`src/main.py` lines 232-245); the visualization enrichment
(`traversal_paths`, `nodes_used`, `similar_nodes_found`) and session
bookkeeping are outside the claims and omitted. -/
structure AskResponse where
  question : Str
  cypher_query : Str
  answer : Str
  error : Str
  plan : Str
  steps_taken : Nat
  confidence : ℚ

/-- Projection of the final run state into the `/ask` response fields. -/
def mkResponse (result : GState) : AskResponse :=
  { question := result.question
    cypher_query := result.cypher_query
    answer := result.final_answer
    error := result.error
    plan := result.plan
    steps_taken := result.step
    confidence := result.confidence }

/-! ### Concrete environments used by witnesses and counterexamples -/

/-- Returns `true` exactly on an `Except.ok` value. -/
def isOkE {ε α : Type} : Except ε α → Bool
  | .ok _ => true
  | .error _ => false

/-- An environment for the no-graph-match scenario: the store always
succeeds with the empty result sequence, similarity search finds nothing,
and the model always emits the fixed query text `cq`. -/
def emptyMatchOracle (cq : Str) : Oracles :=
  { embed := fun _ => .ok []
    vecCount := .ok 1
    fetchAllNodes := .ok []
    upsertNodes := fun _ => .ok ()
    simSearch := fun _ _ => .ok []
    expand := fun _ _ => .ok ⟨some [], some []⟩
    execQuery := fun _ _ => .ok []
    genCypher := fun _ _ => .ok cq
    interpret := fun _ _ => .ok (str "interpreted") }

/-- A benign default environment. -/
def oracleA : Oracles := emptyMatchOracle (str "MATCH (n) RETURN n")

/-- A fresh initial state for a fixed question. -/
def baseState : GState := mkInitialState (str "who is ill") none []

/-- An environment whose embedding client raises. -/
def embedFailOracle : Oracles :=
  { oracleA with embed := fun _ => .error (str "ProviderError: embedding failed") }

/-- An environment where the vector index and the similarity search fail
but embedding and expansion succeed. -/
def degradedOracle : Oracles :=
  { oracleA with
    vecCount := .error (str "index down")
    simSearch := fun _ _ => .error (str "search down") }

/-- A 4001-character node identifier. -/
def bigId : Str := List.replicate 4001 'a'

/-- A store node whose identifier alone exceeds the context cap. -/
def bigNode : SGNode := ⟨bigId, str "L", []⟩

/-- An environment whose expansion returns the oversized node. -/
def longIdOracle : Oracles :=
  { oracleA with
    simSearch := fun _ _ => .ok [⟨str "seed"⟩]
    expand := fun _ _ => .ok ⟨some [bigNode], some []⟩ }

/-- An environment producing the stale-error run: the first two store
calls fail, the third succeeds with one record. -/
def staleErrorOracle : Oracles :=
  { oracleA with
    execQuery := fun k _ =>
      if k = 0 then .error (str "E1")
      else if k = 1 then .error (str "E2")
      else .ok [Val.dict [(str "firstName", Val.str (str "Ana"))]]
    interpret := fun _ _ => .ok (str "One matching patient: Ana.") }

/-- Initial state of the stale-error run. -/
def staleInit : GState := mkInitialState (str "q10") none []

/-- Final state of the stale-error run. -/
def staleFinal : GState :=
  ((runWorkflow staleErrorOracle 7 staleInit).1.finalState?).getD staleInit

/-- Initial state of the no-graph-match counterexample run. -/
def c2init : GState := mkInitialState (str "find unicorns") none []

/-- The retrieval output on the oversized-identifier environment. -/
def c4state : GState :=
  ((retriever_agent longIdOracle baseState).toOption).getD baseState

/-- State after the retrieval step of the no-graph-match run. -/
def nmA1 (cq q hist : Str) (sid : Option Str) : GState :=
  { planner_decide (emptyMatchOracle cq) (mkInitialState q sid hist) with query_embedding := [], similar_nodes := [], subgraph := ⟨some [], some []⟩, context := str "NODES:\nRELATIONSHIPS:" }

/-- State after the query-generation step of the no-graph-match run. -/
def nmA2 (cq q hist : Str) (sid : Option Str) : GState :=
  { planner_decide (emptyMatchOracle cq) (nmA1 cq q hist sid) with cypher_query := cq }

/-- State after the first execution of the no-graph-match run. -/
def nmA3 (cq q hist : Str) (sid : Option Str) : GState :=
  { planner_decide (emptyMatchOracle cq) (nmA2 cq q hist sid) with neo4j_results := [] }

/-- State after the second execution of the no-graph-match run. -/
def nmA4 (cq q hist : Str) (sid : Option Str) : GState :=
  { planner_decide (emptyMatchOracle cq) (nmA3 cq q hist sid) with neo4j_results := [] }

/-- State after the third execution of the no-graph-match run. -/
def nmA5 (cq q hist : Str) (sid : Option Str) : GState :=
  { planner_decide (emptyMatchOracle cq) (nmA4 cq q hist sid) with neo4j_results := [] }

/-- State after the fourth execution of the no-graph-match run. -/
def nmA6 (cq q hist : Str) (sid : Option Str) : GState :=
  { planner_decide (emptyMatchOracle cq) (nmA5 cq q hist sid) with neo4j_results := [] }

/-- The state reaching `build_subgraph_context` in the oversized-identifier
retrieval (definitions for the C4 analysis). -/
def c4pre : GState :=
  { baseState with query_embedding := [], similar_nodes := [⟨str "seed"⟩], subgraph := ⟨some [bigNode], some []⟩ }

/-! ### Projection lemmas for the embedded nodes -/

theorem append_message_proj (s : GState) (r c : Str) :
    (append_message s r c).step = s.step ∧
    (append_message s r c).max_steps = s.max_steps ∧
    (append_message s r c).refinement_count = s.refinement_count ∧
    (append_message s r c).context = s.context ∧
    (append_message s r c).cypher_query = s.cypher_query ∧
    (append_message s r c).decision = s.decision ∧
    (append_message s r c).error = s.error ∧
    (append_message s r c).neo4j_results = s.neo4j_results ∧
    (append_message s r c).question = s.question ∧
    (append_message s r c).final_answer = s.final_answer :=
  ⟨rfl, rfl, rfl, rfl, rfl, rfl, rfl, rfl, rfl, rfl⟩

theorem planner_policy_fst (s : GState) :
    (planner_policy s).1.step = s.step ∧
    (planner_policy s).1.max_steps = s.max_steps ∧
    (planner_policy s).1.context = s.context ∧
    (planner_policy s).1.cypher_query = s.cypher_query ∧
    (planner_policy s).1.error = s.error ∧
    (planner_policy s).1.neo4j_results = s.neo4j_results ∧
    (planner_policy s).1.question = s.question ∧
    (planner_policy s).1.final_answer = s.final_answer := by
  unfold planner_policy
  dsimp only
  split_ifs <;> exact ⟨rfl, rfl, rfl, rfl, rfl, rfl, rfl, rfl⟩

theorem planner_policy_count_le (s : GState) (h : s.refinement_count ≤ 1) :
    (planner_policy s).1.refinement_count ≤ 1 := by
  unfold planner_policy
  dsimp only
  split_ifs <;> simp_all

theorem planner_policy_count_frozen (s : GState) (h : 1 ≤ s.refinement_count) :
    (planner_policy s).1.refinement_count = s.refinement_count := by
  unfold planner_policy
  dsimp only
  split_ifs <;> simp_all

theorem planner_budget_answer_proj (O : Oracles) (q : Str) (res : List Val)
    (s : GState) :
    (planner_budget_answer O q res s).step = s.step ∧
    (planner_budget_answer O q res s).max_steps = s.max_steps ∧
    (planner_budget_answer O q res s).refinement_count = s.refinement_count ∧
    (planner_budget_answer O q res s).context = s.context ∧
    (planner_budget_answer O q res s).cypher_query = s.cypher_query ∧
    (planner_budget_answer O q res s).decision = s.decision ∧
    (planner_budget_answer O q res s).error = s.error ∧
    (planner_budget_answer O q res s).neo4j_results = s.neo4j_results ∧
    (planner_budget_answer O q res s).question = s.question := by
  unfold planner_budget_answer
  dsimp only
  split_ifs <;> try exact ⟨rfl, rfl, rfl, rfl, rfl, rfl, rfl, rfl, rfl⟩
  all_goals (split <;> exact ⟨rfl, rfl, rfl, rfl, rfl, rfl, rfl, rfl, rfl⟩)

theorem planner_decide_proj (O : Oracles) (s : GState) :
    (planner_decide O s).step = s.step + 1 ∧
    (planner_decide O s).max_steps = s.max_steps ∧
    (planner_decide O s).context = s.context ∧
    (planner_decide O s).cypher_query = s.cypher_query ∧
    (planner_decide O s).error = s.error ∧
    (planner_decide O s).neo4j_results = s.neo4j_results ∧
    (planner_decide O s).question = s.question := by
  unfold planner_decide
  dsimp only
  split_ifs <;>
    simp [planner_budget_answer_proj, planner_policy_fst, append_message_proj]

theorem planner_decide_count_le (O : Oracles) (s : GState)
    (h : s.refinement_count ≤ 1) :
    (planner_decide O s).refinement_count ≤ 1 := by
  unfold planner_decide
  dsimp only
  split_ifs
  · simpa [planner_budget_answer_proj, append_message_proj] using h
  · simpa [append_message_proj] using
      planner_policy_count_le { s with step := s.step + 1 } h
  · simpa [append_message_proj] using
      planner_policy_count_le { s with step := s.step + 1 } h

theorem planner_decide_count_frozen (O : Oracles) (s : GState)
    (h : 1 ≤ s.refinement_count) :
    (planner_decide O s).refinement_count = s.refinement_count := by
  unfold planner_decide
  dsimp only
  split_ifs
  · simp [planner_budget_answer_proj, append_message_proj]
  · simpa [append_message_proj] using
      planner_policy_count_frozen { s with step := s.step + 1 } h
  · simpa [append_message_proj] using
      planner_policy_count_frozen { s with step := s.step + 1 } h

theorem planner_decide_budget_end (O : Oracles) (s : GState)
    (h : s.max_steps < s.step + 1) :
    (planner_decide O s).decision = str "end" := by
  unfold planner_decide
  dsimp only
  rw [if_pos h]
  simp [planner_budget_answer_proj, append_message_proj]

theorem planner_decide_in_budget (O : Oracles) (s : GState)
    (h : ¬ s.max_steps < s.step + 1) :
    (planner_decide O s).decision =
      (planner_policy { s with step := s.step + 1 }).2.1 ∧
    (planner_decide O s).refinement_count =
      (planner_policy { s with step := s.step + 1 }).1.refinement_count := by
  unfold planner_decide
  dsimp only
  rw [if_neg h]
  constructor <;> split_ifs <;> simp [append_message_proj]

theorem planner_policy_retrieve (t : GState) (h : t.context = []) :
    (planner_policy t).2.1 = str "retrieve" ∧ (planner_policy t).1 = t := by
  unfold planner_policy
  dsimp only
  split_ifs <;> simp_all

theorem planner_policy_query (t : GState) (h1 : t.context ≠ [])
    (h2 : t.cypher_query = []) :
    (planner_policy t).2.1 = str "query" ∧ (planner_policy t).1 = t := by
  unfold planner_policy
  dsimp only
  split_ifs <;> simp_all

theorem planner_policy_refine_err (t : GState) (h1 : t.context ≠ [])
    (h2 : t.cypher_query ≠ []) (h3 : t.neo4j_results.length = 0)
    (h4 : t.refinement_count < 1) (h5 : t.error ≠ []) :
    (planner_policy t).2.1 = str "refine" ∧
    (planner_policy t).1 = { t with refinement_count := t.refinement_count + 1 } := by
  unfold planner_policy
  dsimp only
  split_ifs <;> simp_all

theorem planner_policy_execute (t : GState) (h1 : t.context ≠ [])
    (h2 : t.cypher_query ≠ []) (h3 : t.neo4j_results.length = 0)
    (h4 : ¬ (t.refinement_count < 1 ∧ t.error ≠ [])) :
    (planner_policy t).2.1 = str "execute" ∧ (planner_policy t).1 = t := by
  unfold planner_policy
  dsimp only
  split_ifs <;> simp_all

theorem planner_policy_refine_over (t : GState) (h1 : t.context ≠ [])
    (h2 : t.cypher_query ≠ []) (h3 : 100 < t.neo4j_results.length)
    (h4 : t.refinement_count = 0) :
    (planner_policy t).2.1 = str "refine" ∧
    (planner_policy t).1 = { t with refinement_count := t.refinement_count + 1 } := by
  unfold planner_policy
  dsimp only
  split_ifs <;> simp_all

theorem planner_policy_answer_over (t : GState) (h1 : t.context ≠ [])
    (h2 : t.cypher_query ≠ []) (h3 : 100 < t.neo4j_results.length)
    (h4 : t.refinement_count ≠ 0) :
    (planner_policy t).2.1 = str "answer" ∧ (planner_policy t).1 = t := by
  unfold planner_policy
  dsimp only
  split_ifs <;> simp_all

theorem planner_policy_answer (t : GState) (h1 : t.context ≠ [])
    (h2 : t.cypher_query ≠ []) (h3 : ¬ 100 < t.neo4j_results.length)
    (h4 : 0 < t.neo4j_results.length) :
    (planner_policy t).2.1 = str "answer" ∧ (planner_policy t).1 = t := by
  unfold planner_policy
  dsimp only
  split_ifs <;> simp_all

theorem planner_policy_decision_mem (t : GState) :
    (planner_policy t).2.1 ∈ [str "retrieve", str "query", str "refine",
      str "execute", str "answer"] := by
  unfold planner_policy
  dsimp only
  split_ifs <;> simp

theorem ensure_vector_index_eq (O : Oracles) (s : GState) :
    ensure_vector_index O s = s := by
  unfold ensure_vector_index
  cases O.vecCount with
  | error e => rfl
  | ok c =>
    dsimp only
    split_ifs with h
    · cases O.fetchAllNodes with
      | error e => rfl
      | ok ns => rfl
    · rfl

theorem embed_question_ok (O : Oracles) (s s2 : GState)
    (h : embed_question O s = .ok s2) :
    ∃ e, s2 = { s with query_embedding := e } := by
  unfold embed_question at h
  cases he : O.embed s.question with
  | error err => rw [he] at h; simp [Bind.bind, Except.bind] at h
  | ok e =>
    rw [he] at h
    simp only [Bind.bind, Except.bind, Pure.pure, Except.pure, Except.ok.injEq] at h
    exact ⟨e, h.symm⟩

theorem similarity_search_ex (O : Oracles) (s : GState) :
    ∃ hits, similarity_search O s = { s with similar_nodes := hits } := by
  unfold similarity_search
  cases O.simSearch s.question 3 with
  | error e => exact ⟨[], rfl⟩
  | ok hits => exact ⟨hits, rfl⟩

theorem expand_traversal_ok (O : Oracles) (s s2 : GState)
    (h : expand_traversal O s = .ok s2) :
    ∃ g, s2 = { s with subgraph := g } := by
  unfold expand_traversal at h
  dsimp only at h
  split_ifs at h with hids
  · simp only [Pure.pure, Except.pure, Except.ok.injEq] at h
    exact ⟨_, h.symm⟩
  · cases he : O.expand (s.similar_nodes.map Hit.id) 1 with
    | error err => rw [he] at h; simp [Bind.bind, Except.bind] at h
    | ok g =>
      rw [he] at h
      simp only [Bind.bind, Except.bind, Pure.pure, Except.pure,
        Except.ok.injEq] at h
      exact ⟨_, h.symm⟩

theorem build_subgraph_context_ex (s : GState) :
    ∃ c, build_subgraph_context s = { s with context := c } := ⟨_, rfl⟩

theorem intercalate_cons_ne_nil (sep x : Str) (xs : List Str) (hx : x ≠ []) :
    List.intercalate sep (x :: xs) ≠ [] := by
  cases xs with
  | nil => simpa [List.intercalate, List.intersperse] using hx
  | cons y ys =>
    simp [List.intercalate, List.intersperse, hx]

theorem build_subgraph_context_ne (s : GState) :
    (build_subgraph_context s).context ≠ [] := by
  unfold build_subgraph_context
  dsimp only
  split_ifs with h
  · simp [str]
  · exact intercalate_cons_ne_nil _ _ _ (by decide)

theorem retriever_agent_ok (O : Oracles) (s s2 : GState)
    (h : retriever_agent O s = .ok s2) :
    s2.step = s.step ∧ s2.max_steps = s.max_steps ∧
    s2.refinement_count = s.refinement_count ∧
    s2.cypher_query = s.cypher_query ∧ s2.error = s.error ∧
    s2.neo4j_results = s.neo4j_results ∧ s2.question = s.question ∧
    s2.final_answer = s.final_answer ∧ s2.decision = s.decision ∧
    s2.context ≠ [] := by
  unfold retriever_agent at h
  rw [ensure_vector_index_eq] at h
  dsimp only at h
  cases hemb : embed_question O s with
  | error e => rw [hemb] at h; simp [Bind.bind, Except.bind] at h
  | ok sB =>
    rw [hemb] at h
    obtain ⟨e, rfl⟩ := embed_question_ok O s sB hemb
    simp only [Bind.bind, Except.bind] at h
    obtain ⟨hits, hss⟩ := similarity_search_ex O { s with query_embedding := e }
    rw [hss] at h
    cases hexp : expand_traversal O
        { s with query_embedding := e, similar_nodes := hits } with
    | error err => rw [hexp] at h; simp at h
    | ok sC =>
      rw [hexp] at h
      obtain ⟨g, rfl⟩ := expand_traversal_ok O _ _ hexp
      simp only [Pure.pure, Except.pure, Except.ok.injEq] at h
      subst h
      refine ⟨rfl, rfl, rfl, rfl, rfl, rfl, rfl, rfl, rfl, ?_⟩
      exact build_subgraph_context_ne _

theorem cypher_agent_ok (O : Oracles) (s s2 : GState)
    (h : cypher_agent O s = .ok s2) :
    ∃ q, s2 = { s with cypher_query := q } := by
  unfold cypher_agent at h
  dsimp only at h
  cases hq : O.genCypher
      (if s.conversation_history ≠ [] then
        str "Previous conversation:\n" ++ s.conversation_history ++
        str "\n\nCurrent question: " ++ s.question
      else s.question)
      (SCHEMA ++ str "\n\nContext:\n" ++ s.context) with
  | error e => rw [hq] at h; simp [Bind.bind, Except.bind] at h
  | ok q =>
    rw [hq] at h
    simp only [Bind.bind, Except.bind, Pure.pure, Except.pure,
      Except.ok.injEq] at h
    exact ⟨q, h.symm⟩

theorem refine_query_ok (O : Oracles) (s s2 : GState)
    (h : refine_query O s = .ok s2) :
    s2.step = s.step ∧ s2.max_steps = s.max_steps ∧
    s2.refinement_count = s.refinement_count ∧
    s2.context = s.context ∧ s2.question = s.question ∧
    s2.final_answer = s.final_answer ∧ s2.decision = s.decision := by
  unfold refine_query at h
  dsimp only at h
  split_ifs at h with h1 h2 h3
  · simp only [Pure.pure, Except.pure, Except.ok.injEq] at h
    subst h; exact ⟨rfl, rfl, rfl, rfl, rfl, rfl, rfl⟩
  · cases hg : O.genCypher
        (refinementPromptFail s.error s.cypher_query s.question) SCHEMA with
    | error e => rw [hg] at h; simp [Bind.bind, Except.bind] at h
    | ok q =>
      rw [hg] at h
      simp only [Bind.bind, Except.bind, Pure.pure, Except.pure,
        Except.ok.injEq] at h
      subst h; exact ⟨rfl, rfl, rfl, rfl, rfl, rfl, rfl⟩
  · cases hg : O.genCypher
        (refinementPromptNarrow s.neo4j_results.length s.cypher_query
          s.question) SCHEMA with
    | error e => rw [hg] at h; simp [Bind.bind, Except.bind] at h
    | ok q =>
      rw [hg] at h
      simp only [Bind.bind, Except.bind, Pure.pure, Except.pure,
        Except.ok.injEq] at h
      subst h; exact ⟨rfl, rfl, rfl, rfl, rfl, rfl, rfl⟩
  · simp only [Pure.pure, Except.pure, Except.ok.injEq] at h
    subst h; exact ⟨rfl, rfl, rfl, rfl, rfl, rfl, rfl⟩

theorem synthesizer_agent_ok (O : Oracles) (s s2 : GState)
    (h : synthesizer_agent O s = .ok s2) :
    ∃ a, s2 = { s with final_answer := a } := by
  unfold synthesizer_agent at h
  dsimp only at h
  by_cases h1 : s.neo4j_results.length = 0
  · rw [if_pos h1] at h
    simp only [Pure.pure, Except.pure, Except.ok.injEq] at h
    exact ⟨_, h.symm⟩
  · rw [if_neg h1] at h
    simp only [Bind.bind, Except.bind] at h
    split at h
    · exact absurd h (by simp)
    · simp only [Pure.pure, Except.pure, Except.ok.injEq] at h
      exact ⟨_, h.symm⟩

theorem execute_neo4j_query_proj (O : Oracles) (k : Nat) (s : GState) :
    (execute_neo4j_query O k s).1.step = s.step ∧
    (execute_neo4j_query O k s).1.max_steps = s.max_steps ∧
    (execute_neo4j_query O k s).1.refinement_count = s.refinement_count ∧
    (execute_neo4j_query O k s).1.context = s.context ∧
    (execute_neo4j_query O k s).1.cypher_query = s.cypher_query ∧
    (execute_neo4j_query O k s).1.question = s.question ∧
    (execute_neo4j_query O k s).1.final_answer = s.final_answer ∧
    (execute_neo4j_query O k s).1.decision = s.decision := by
  unfold execute_neo4j_query
  dsimp only
  split_ifs
  · exact ⟨rfl, rfl, rfl, rfl, rfl, rfl, rfl, rfl⟩
  · split <;> exact ⟨rfl, rfl, rfl, rfl, rfl, rfl, rfl, rfl⟩

theorem router_END_iff (s : GState) :
    router_next_action s = str "END" ↔ s.decision = str "end" := by
  unfold router_next_action
  dsimp only
  split_ifs with h1 h2 h3 h4 h5 h6
  · rw [h1]; decide
  · rw [h2]; decide
  · rw [h3]; decide
  · rw [h4]; decide
  · rw [h5]; decide
  · rw [h6]; decide
  · exact iff_of_false (by decide) h6

theorem router_cypher_iff (s : GState) :
    router_next_action s = str "cypher_agent" ↔ s.decision = str "query" := by
  unfold router_next_action
  dsimp only
  split_ifs with h1 h2 h3 h4 h5 h6
  · rw [h1]; decide
  · rw [h2]; decide
  · rw [h3]; decide
  · rw [h4]; decide
  · rw [h5]; decide
  · rw [h6]; decide
  · exact iff_of_false (by decide) (fun hh => h2 hh)

theorem router_refine_iff (s : GState) :
    router_next_action s = str "refine_query" ↔ s.decision = str "refine" := by
  unfold router_next_action
  dsimp only
  split_ifs with h1 h2 h3 h4 h5 h6
  · rw [h1]; decide
  · rw [h2]; decide
  · rw [h3]; decide
  · rw [h4]; decide
  · rw [h5]; decide
  · rw [h6]; decide
  · exact iff_of_false (by decide) (fun hh => h3 hh)

theorem runAux_trace (O : Oracles) (P Q : GState → Prop)
    (hPQ : ∀ s, P s → Q s)
    (hplanQ : ∀ s, P s → Q (planner_decide O s))
    (hplanP : ∀ s, P s → (planner_decide O s).decision ≠ str "end" →
      P (planner_decide O s))
    (hret : ∀ s s2, retriever_agent O s = .ok s2 → P s → P s2)
    (hcy : ∀ s s2, s.decision = str "query" → cypher_agent O s = .ok s2 →
      P s → P s2)
    (href : ∀ s s2, s.decision = str "refine" → refine_query O s = .ok s2 →
      P s → P s2)
    (hex : ∀ k s, P s → P (execute_neo4j_query O k s).1)
    (hsy : ∀ s s2, synthesizer_agent O s = .ok s2 → P s → P s2) :
    ∀ fuel s k, P s → ∀ p ∈ (runAux O fuel s k).2, Q p.2 := by
  intro fuel
  induction fuel with
  | zero => intro s k hP p hp; simp [runAux] at hp
  | succ n ih =>
    intro s k hP p hp
    unfold runAux at hp
    dsimp only at hp
    have hQ1 : Q (planner_decide O s) := hplanQ s hP
    by_cases hEND : router_next_action (planner_decide O s) = str "END"
    · rw [if_pos hEND] at hp
      simp only [List.mem_singleton] at hp
      subst hp; exact hQ1
    · rw [if_neg hEND] at hp
      have hne : (planner_decide O s).decision ≠ str "end" :=
        fun hd => hEND ((router_END_iff _).mpr hd)
      have hP1 : P (planner_decide O s) := hplanP s hP hne
      by_cases hRET : router_next_action (planner_decide O s) =
          str "retriever_agent"
      · rw [if_pos hRET] at hp
        cases hr : retriever_agent O (planner_decide O s) with
        | error e =>
          rw [hr] at hp
          simp only [List.mem_singleton] at hp
          subst hp; exact hQ1
        | ok s2 =>
          rw [hr] at hp
          simp only [List.mem_cons] at hp
          rcases hp with rfl | rfl | hp
          · exact hQ1
          · exact hPQ _ (hret _ _ hr hP1)
          · exact ih _ _ (hret _ _ hr hP1) _ hp
      · rw [if_neg hRET] at hp
        by_cases hCY : router_next_action (planner_decide O s) =
            str "cypher_agent"
        · rw [if_pos hCY] at hp
          have hdq : (planner_decide O s).decision = str "query" :=
            (router_cypher_iff _).mp hCY
          cases hr : cypher_agent O (planner_decide O s) with
          | error e =>
            rw [hr] at hp
            simp only [List.mem_singleton] at hp
            subst hp; exact hQ1
          | ok s2 =>
            rw [hr] at hp
            simp only [List.mem_cons] at hp
            rcases hp with rfl | rfl | hp
            · exact hQ1
            · exact hPQ _ (hcy _ _ hdq hr hP1)
            · exact ih _ _ (hcy _ _ hdq hr hP1) _ hp
        · rw [if_neg hCY] at hp
          by_cases hRF : router_next_action (planner_decide O s) =
              str "refine_query"
          · rw [if_pos hRF] at hp
            have hdr : (planner_decide O s).decision = str "refine" :=
              (router_refine_iff _).mp hRF
            cases hr : refine_query O (planner_decide O s) with
            | error e =>
              rw [hr] at hp
              simp only [List.mem_singleton] at hp
              subst hp; exact hQ1
            | ok s2 =>
              rw [hr] at hp
              simp only [List.mem_cons] at hp
              rcases hp with rfl | rfl | hp
              · exact hQ1
              · exact hPQ _ (href _ _ hdr hr hP1)
              · exact ih _ _ (href _ _ hdr hr hP1) _ hp
          · rw [if_neg hRF] at hp
            by_cases hEX : router_next_action (planner_decide O s) =
                str "execute_query"
            · rw [if_pos hEX] at hp
              simp only [List.mem_cons] at hp
              rcases hp with rfl | rfl | hp
              · exact hQ1
              · exact hPQ _ (hex _ _ hP1)
              · exact ih _ _ (hex _ _ hP1) _ hp
            · rw [if_neg hEX] at hp
              cases hr : synthesizer_agent O (planner_decide O s) with
              | error e =>
                rw [hr] at hp
                simp only [List.mem_singleton] at hp
                subst hp; exact hQ1
              | ok s2 =>
                rw [hr] at hp
                simp only [List.mem_cons] at hp
                rcases hp with rfl | rfl | hp
                · exact hQ1
                · exact hPQ _ (hsy _ _ hr hP1)
                · simp at hp

theorem planner_not_end_budget (O : Oracles) (s : GState)
    (h : (planner_decide O s).decision ≠ str "end") :
    s.step + 1 ≤ s.max_steps := by
  by_contra hb
  exact h (planner_decide_budget_end O s (by omega))

theorem runAux_no_fuelOut (O : Oracles) :
    ∀ fuel s k, s.step ≤ s.max_steps → s.max_steps + 1 ≤ s.step + fuel →
      (runAux O fuel s k).1.isFuelOut = false := by
  intro fuel
  induction fuel with
  | zero => intro s k h1 h2; omega
  | succ n ih =>
    intro s k h1 h2
    unfold runAux
    dsimp only
    by_cases hEND : router_next_action (planner_decide O s) = str "END"
    · rw [if_pos hEND]; rfl
    · rw [if_neg hEND]
      have hne : (planner_decide O s).decision ≠ str "end" :=
        fun hd => hEND ((router_END_iff _).mpr hd)
      have hbud : s.step + 1 ≤ s.max_steps := planner_not_end_budget O s hne
      have hstep1 : (planner_decide O s).step = s.step + 1 :=
        (planner_decide_proj O s).1
      have hmax1 : (planner_decide O s).max_steps = s.max_steps :=
        (planner_decide_proj O s).2.1
      by_cases hRET : router_next_action (planner_decide O s) =
          str "retriever_agent"
      · rw [if_pos hRET]
        cases hr : retriever_agent O (planner_decide O s) with
        | error e => rfl
        | ok s2 =>
          obtain ⟨hs, hm, -⟩ := retriever_agent_ok O _ _ hr
          exact ih s2 k (by omega) (by omega)
      · rw [if_neg hRET]
        by_cases hCY : router_next_action (planner_decide O s) =
            str "cypher_agent"
        · rw [if_pos hCY]
          cases hr : cypher_agent O (planner_decide O s) with
          | error e => rfl
          | ok s2 =>
            obtain ⟨q, rfl⟩ := cypher_agent_ok O _ _ hr
            exact ih _ k (by simp; omega) (by simp; omega)
        · rw [if_neg hCY]
          by_cases hRF : router_next_action (planner_decide O s) =
              str "refine_query"
          · rw [if_pos hRF]
            cases hr : refine_query O (planner_decide O s) with
            | error e => rfl
            | ok s2 =>
              obtain ⟨hs, hm, -⟩ := refine_query_ok O _ _ hr
              exact ih s2 k (by omega) (by omega)
          · rw [if_neg hRF]
            by_cases hEX : router_next_action (planner_decide O s) =
                str "execute_query"
            · rw [if_pos hEX]
              obtain ⟨hs, hm, -⟩ := execute_neo4j_query_proj O k
                (planner_decide O s)
              exact ih _ _ (by omega) (by omega)
            · rw [if_neg hEX]
              cases hr : synthesizer_agent O (planner_decide O s) with
              | error e => rfl
              | ok s2 => rfl

theorem planner_decide_qr_ctx (O : Oracles) (s : GState)
    (hd : (planner_decide O s).decision = str "query" ∨
      (planner_decide O s).decision = str "refine") :
    (planner_decide O s).context ≠ [] := by
  by_cases hb : s.max_steps < s.step + 1
  · have he := planner_decide_budget_end O s hb
    rcases hd with hd | hd <;> rw [he] at hd <;> exact absurd hd (by decide)
  · have hdec := (planner_decide_in_budget O s hb).1
    have hctx : (planner_decide O s).context = s.context :=
      (planner_decide_proj O s).2.2.1
    rw [hctx]
    by_cases hc : s.context = []
    · have hr := planner_policy_retrieve { s with step := s.step + 1 }
        (by simpa using hc)
      rw [hdec, hr.1] at hd
      rcases hd with hd | hd <;> exact absurd hd (by decide)
    · exact hc

/-- Run-level invariant: `refinement_count` stays at most 1 in every state
the run passes through. -/
theorem runAux_count_le (O : Oracles) (fuel : Nat) (s : GState) (k : Nat)
    (h : s.refinement_count ≤ 1) :
    ∀ p ∈ (runAux O fuel s k).2, p.2.refinement_count ≤ 1 := by
  refine runAux_trace O (fun t => t.refinement_count ≤ 1)
    (fun t => t.refinement_count ≤ 1) (fun _ h => h)
    (fun s h => planner_decide_count_le O s h)
    (fun s h _ => planner_decide_count_le O s h)
    ?_ ?_ ?_ ?_ ?_ fuel s k h
  · intro s s2 hr h
    rw [(retriever_agent_ok O s s2 hr).2.2.1]; exact h
  · intro s s2 _ hr h
    obtain ⟨q, rfl⟩ := cypher_agent_ok O s s2 hr; exact h
  · intro s s2 _ hr h
    rw [(refine_query_ok O s s2 hr).2.2.1]; exact h
  · intro k s h
    rw [(execute_neo4j_query_proj O k s).2.2.1]; exact h
  · intro s s2 hr h
    obtain ⟨a, rfl⟩ := synthesizer_agent_ok O s s2 hr; exact h

/-- Run-level invariant: with a step budget not yet exhausted at entry, no
state of the run carries a step counter above `max_steps + 1`, and the
budget itself is never modified. -/
theorem runAux_step_bound (O : Oracles) (fuel : Nat) (s : GState) (k : Nat)
    (h : s.step ≤ s.max_steps) :
    ∀ p ∈ (runAux O fuel s k).2,
      p.2.step ≤ s.max_steps + 1 ∧ p.2.max_steps = s.max_steps := by
  refine runAux_trace O
    (fun t => t.step ≤ s.max_steps ∧ t.max_steps = s.max_steps)
    (fun t => t.step ≤ s.max_steps + 1 ∧ t.max_steps = s.max_steps)
    (fun t ht => ⟨by omega, ht.2⟩)
    ?_ ?_ ?_ ?_ ?_ ?_ ?_ fuel s k ⟨h, rfl⟩
  · intro t ht
    have h1 := (planner_decide_proj O t).1
    have h2 := (planner_decide_proj O t).2.1
    exact ⟨by omega, by omega⟩
  · intro t ht hne
    have h1 := (planner_decide_proj O t).1
    have h2 := (planner_decide_proj O t).2.1
    have h3 := planner_not_end_budget O t hne
    exact ⟨by omega, by omega⟩
  · intro t t2 hr ht
    obtain ⟨h1, h2, -⟩ := retriever_agent_ok O t t2 hr
    exact ⟨by omega, by omega⟩
  · intro t t2 _ hr ht
    obtain ⟨q, rfl⟩ := cypher_agent_ok O t t2 hr
    exact ⟨ht.1, ht.2⟩
  · intro t t2 _ hr ht
    obtain ⟨h1, h2, -⟩ := refine_query_ok O t t2 hr
    exact ⟨by omega, by omega⟩
  · intro k t ht
    obtain ⟨h1, h2, -⟩ := execute_neo4j_query_proj O k t
    exact ⟨by omega, by omega⟩
  · intro t t2 hr ht
    obtain ⟨a, rfl⟩ := synthesizer_agent_ok O t t2 hr
    exact ⟨ht.1, ht.2⟩

/-- Run-level invariant: whenever a state of the run holds a query, it
also holds a non-empty context (and a `"query"`/`"refine"` decision always
comes with a non-empty context). -/
theorem runAux_ctx_inv (O : Oracles) (fuel : Nat) (s : GState) (k : Nat)
    (h : s.cypher_query ≠ [] → s.context ≠ [])
    (h2 : (s.decision = str "query" ∨ s.decision = str "refine") →
      s.context ≠ []) :
    ∀ p ∈ (runAux O fuel s k).2,
      (p.2.cypher_query ≠ [] → p.2.context ≠ []) ∧
      ((p.2.decision = str "query" ∨ p.2.decision = str "refine") →
        p.2.context ≠ []) := by
  refine runAux_trace O
    (fun t => (t.cypher_query ≠ [] → t.context ≠ []) ∧
      ((t.decision = str "query" ∨ t.decision = str "refine") →
        t.context ≠ []))
    (fun t => (t.cypher_query ≠ [] → t.context ≠ []) ∧
      ((t.decision = str "query" ∨ t.decision = str "refine") →
        t.context ≠ []))
    (fun _ ht => ht) ?_ ?_ ?_ ?_ ?_ ?_ ?_ fuel s k ⟨h, h2⟩
  · intro t ht
    have hctx : (planner_decide O t).context = t.context :=
      (planner_decide_proj O t).2.2.1
    have hcy : (planner_decide O t).cypher_query = t.cypher_query :=
      (planner_decide_proj O t).2.2.2.1
    exact ⟨fun hq => by rw [hctx]; exact ht.1 (hcy ▸ hq),
      fun hd => planner_decide_qr_ctx O t hd⟩
  · intro t ht _
    have hctx : (planner_decide O t).context = t.context :=
      (planner_decide_proj O t).2.2.1
    have hcy : (planner_decide O t).cypher_query = t.cypher_query :=
      (planner_decide_proj O t).2.2.2.1
    exact ⟨fun hq => by rw [hctx]; exact ht.1 (hcy ▸ hq),
      fun hd => planner_decide_qr_ctx O t hd⟩
  · intro t t2 hr ht
    obtain ⟨-, -, -, -, -, -, -, -, -, hctx⟩ := retriever_agent_ok O t t2 hr
    exact ⟨fun _ => hctx, fun _ => hctx⟩
  · intro t t2 hdq hr ht
    obtain ⟨q, rfl⟩ := cypher_agent_ok O t t2 hr
    have hctx : t.context ≠ [] := ht.2 (Or.inl hdq)
    exact ⟨fun _ => hctx, fun _ => hctx⟩
  · intro t t2 hdr hr ht
    have hctx : t.context ≠ [] := ht.2 (Or.inr hdr)
    obtain ⟨-, -, -, hc, -, -, hd⟩ := refine_query_ok O t t2 hr
    rw [hc, hd]
    exact ⟨fun _ => hctx, fun _ => hctx⟩
  · intro k t ht
    obtain ⟨-, -, -, hc, hcy, -, -, hd⟩ := execute_neo4j_query_proj O k t
    rw [hc, hcy, hd]
    exact ht
  · intro t t2 hr ht
    obtain ⟨a, rfl⟩ := synthesizer_agent_ok O t t2 hr
    exact ht

/-! ### Claims -/

/-- C1: for every run of the orchestration loop started at `step = 0`,
`planner_decide` increments `step` by exactly 1 per iteration, every state
the run passes through satisfies `step ≤ max_steps + 1` (the overflow step
forces `decision = "end"`), and the loop terminates within
`max_steps + 1` planner iterations (that much fuel never runs out). -/
theorem C1_step_bound_and_termination (O : Oracles) (s0 : GState)
    (h0 : s0.step = 0) :
    (∀ s, (planner_decide O s).step = s.step + 1) ∧
    (∀ fuel k, ∀ p ∈ (runAux O fuel s0 k).2, p.2.step ≤ s0.max_steps + 1) ∧
    (runWorkflow O (s0.max_steps + 1) s0).1.isFuelOut = false := by
  refine ⟨fun s => (planner_decide_proj O s).1, ?_, ?_⟩
  · intro fuel k p hp
    exact (runAux_step_bound O fuel s0 k (by omega) p hp).1
  · exact runAux_no_fuelOut O (s0.max_steps + 1) s0 0 (by omega) (by omega)

theorem C1_witness :
    (runWorkflow oracleA (baseState.max_steps + 1) baseState).1.isFuelOut =
      false :=
  (C1_step_bound_and_termination oracleA baseState rfl).2.2

/-- C3: over any run started with `refinement_count = 0`, every state the
run passes through satisfies `refinement_count ≤ 1` (the quota is 1;
`0 ≤ refinement_count` holds because the counter is a natural number),
and the planner never increments a counter that already reached the
quota. -/
theorem C3_refinement_quota (O : Oracles) (s0 : GState)
    (h0 : s0.refinement_count = 0) :
    (∀ fuel k, ∀ p ∈ (runAux O fuel s0 k).2, p.2.refinement_count ≤ 1) ∧
    (∀ s, 1 ≤ s.refinement_count →
      (planner_decide O s).refinement_count = s.refinement_count) :=
  ⟨fun fuel k p hp => runAux_count_le O fuel s0 k (by omega) p hp,
   fun s h => planner_decide_count_frozen O s h⟩

theorem C3_witness :
    (planner_decide oracleA
        { baseState with refinement_count := 1 }).refinement_count =
      ({ baseState with refinement_count := 1 } : GState).refinement_count :=
  (C3_refinement_quota oracleA baseState rfl).2
    { baseState with refinement_count := 1 } (by decide)

/-- C7: whenever the synthesizer runs on a state with an empty result
sequence, it sets `final_answer` to the fixed template (a function of the
question only) and leaves everything else unchanged, for EVERY oracle —
in particular it never invokes the language model. -/
theorem C7_empty_results_template (O : Oracles) (s : GState)
    (h : s.neo4j_results = []) :
    synthesizer_agent O s =
      .ok { s with final_answer := noResultsTemplate s.question } := by
  unfold synthesizer_agent
  dsimp only
  rw [if_pos (by simp [h])]
  rfl

theorem C7_witness :
    synthesizer_agent oracleA baseState =
      .ok { baseState with final_answer := noResultsTemplate baseState.question } :=
  C7_empty_results_template oracleA baseState rfl

/-- C6: for a state with context and query present, more than 100 result
records, and the planner evaluated within budget, the next decision is
`"refine"` (incrementing `refinement_count` to 1) when
`refinement_count = 0`, and `"answer"` (counter unchanged) when
`refinement_count > 0`. -/
theorem C6_oversized_results (O : Oracles) (s : GState)
    (h1 : s.context ≠ []) (h2 : s.cypher_query ≠ [])
    (h3 : 100 < s.neo4j_results.length) (h4 : s.step < s.max_steps) :
    (s.refinement_count = 0 →
      (planner_decide O s).decision = str "refine" ∧
      (planner_decide O s).refinement_count = 1) ∧
    (0 < s.refinement_count →
      (planner_decide O s).decision = str "answer" ∧
      (planner_decide O s).refinement_count = s.refinement_count) := by
  have hb : ¬ s.max_steps < s.step + 1 := by omega
  obtain ⟨hdec, hcnt⟩ := planner_decide_in_budget O s hb
  constructor
  · intro h0
    obtain ⟨hd, hs⟩ := planner_policy_refine_over { s with step := s.step + 1 }
      (by simpa using h1) (by simpa using h2) (by simpa using h3)
      (by simpa using h0)
    refine ⟨by rw [hdec, hd], ?_⟩
    rw [hcnt, hs]
    simp [h0]
  · intro h0
    obtain ⟨hd, hs⟩ := planner_policy_answer_over { s with step := s.step + 1 }
      (by simpa using h1) (by simpa using h2) (by simpa using h3)
      (by simp; omega)
    exact ⟨by rw [hdec, hd], by rw [hcnt, hs]⟩

theorem C6_witness :
    (planner_decide oracleA { baseState with context := str "NODES:", cypher_query := str "Q", neo4j_results := List.replicate 101 (Val.dict []) }).decision = str "refine" ∧
    (planner_decide oracleA { baseState with context := str "NODES:", cypher_query := str "Q", neo4j_results := List.replicate 101 (Val.dict []) }).refinement_count = 1 :=
  (C6_oversized_results oracleA _ (by decide) (by decide)
    (by simp) (by decide)).1 rfl

/-- C5: (policy) in a within-budget state holding a query, empty results
and a recorded error, the next decision is `"refine"` with
`refinement_count` incremented when the counter is below the quota 1, and
`"execute"` with the counter unchanged otherwise; (reachability) in every
state of a run started without a query, a present query implies a
non-empty context, so the context hypothesis of the policy part holds in
every reachable state the claim quantifies over. -/
theorem C5_store_error_refine (O : Oracles) (s : GState)
    (h1 : s.context ≠ []) (h2 : s.cypher_query ≠ [])
    (h3 : s.neo4j_results = []) (h4 : s.error ≠ [])
    (h5 : s.step < s.max_steps) :
    ((s.refinement_count < 1 →
      (planner_decide O s).decision = str "refine" ∧
      (planner_decide O s).refinement_count = s.refinement_count + 1) ∧
     (1 ≤ s.refinement_count →
      (planner_decide O s).decision = str "execute" ∧
      (planner_decide O s).refinement_count = s.refinement_count)) ∧
    (∀ (O' : Oracles) (fuel k : Nat) (q hist : Str) (sid : Option Str),
      ∀ p ∈ (runAux O' fuel (mkInitialState q sid hist) k).2,
        p.2.cypher_query ≠ [] → p.2.context ≠ []) := by
  have hb : ¬ s.max_steps < s.step + 1 := by omega
  obtain ⟨hdec, hcnt⟩ := planner_decide_in_budget O s hb
  refine ⟨⟨?_, ?_⟩, ?_⟩
  · intro h0
    obtain ⟨hd, hs⟩ := planner_policy_refine_err { s with step := s.step + 1 }
      (by simpa using h1) (by simpa using h2) (by simp [h3])
      (by simpa using h0) (by simpa using h4)
    refine ⟨by rw [hdec, hd], ?_⟩
    rw [hcnt, hs]
  · intro h0
    obtain ⟨hd, hs⟩ := planner_policy_execute { s with step := s.step + 1 }
      (by simpa using h1) (by simpa using h2) (by simp [h3])
      (by simp; omega)
    exact ⟨by rw [hdec, hd], by rw [hcnt, hs]⟩
  · intro O' fuel k q hist sid p hp hq
    exact (runAux_ctx_inv O' fuel (mkInitialState q sid hist) k
      (fun hc => absurd rfl hc) (fun hd => by
        rcases hd with hd | hd
        · exact absurd hd (show ([] : Str) ≠ str "query" by decide)
        · exact absurd hd (show ([] : Str) ≠ str "refine" by decide)) p hp).1 hq

theorem C5_witness :
    (planner_decide oracleA { baseState with context := str "NODES:", cypher_query := str "Q", error := str "SyntaxError", step := 3 }).decision = str "refine" ∧
    (planner_decide oracleA { baseState with context := str "NODES:", cypher_query := str "Q", error := str "SyntaxError", step := 3 }).refinement_count = 1 :=
  ((C5_store_error_refine oracleA _ (by decide) (by decide) rfl (by decide)
    (by decide)).1).1 (by decide)

/-- C8: whenever `refine_query` actually refines (a query is present and
either the error/empty-results condition or an oversized result count
holds), the returned state carries the newly generated query and has
`neo4j_results = []` and `error = ""` — on the error/empty path because the
refiner resets both, on the oversized path because that branch is only
reachable with `error` already empty and resets the results. -/
theorem C8_refine_resets (O : Oracles) (s s2 : GState)
    (h1 : s.cypher_query ≠ [])
    (h2 : s.error ≠ [] ∨ s.neo4j_results = [] ∨ 100 < s.neo4j_results.length)
    (h : refine_query O s = .ok s2) :
    s2.neo4j_results = [] ∧ s2.error = [] ∧
    O.genCypher
      (if s.error ≠ [] ∨ s.neo4j_results.length = 0 then
        refinementPromptFail s.error s.cypher_query s.question
      else
        refinementPromptNarrow s.neo4j_results.length s.cypher_query s.question)
      SCHEMA = .ok s2.cypher_query := by
  unfold refine_query at h
  dsimp only at h
  split_ifs at h with ha hb hc
  · exact absurd ha h1
  · cases hg : O.genCypher
        (refinementPromptFail s.error s.cypher_query s.question) SCHEMA with
    | error e => rw [hg] at h; simp [Bind.bind, Except.bind] at h
    | ok qn =>
      rw [hg] at h
      simp only [Bind.bind, Except.bind, Pure.pure, Except.pure,
        Except.ok.injEq] at h
      subst h
      rw [if_pos hb]
      exact ⟨rfl, rfl, hg⟩
  · cases hg : O.genCypher
        (refinementPromptNarrow s.neo4j_results.length s.cypher_query
          s.question) SCHEMA with
    | error e => rw [hg] at h; simp [Bind.bind, Except.bind] at h
    | ok qn =>
      rw [hg] at h
      simp only [Bind.bind, Except.bind, Pure.pure, Except.pure,
        Except.ok.injEq] at h
      subst h
      rw [if_neg hb]
      refine ⟨rfl, ?_, hg⟩
      push_neg at hb
      exact hb.1
  · exact absurd h2
      (by push_neg at hb ⊢
          exact ⟨hb.1, fun hl => hb.2 (by rw [hl]; rfl), by omega⟩)

theorem C8_witness :
    ((refine_query oracleA { baseState with cypher_query := str "Q", error := str "SyntaxError" }).toOption.getD baseState).neo4j_results = [] ∧
    ((refine_query oracleA { baseState with cypher_query := str "Q", error := str "SyntaxError" }).toOption.getD baseState).error = [] := by
  have h := C8_refine_resets oracleA
    { baseState with cypher_query := str "Q", error := str "SyntaxError" }
    ((refine_query oracleA { baseState with cypher_query := str "Q", error := str "SyntaxError" }).toOption.getD baseState)
    (by decide) (Or.inl (by decide)) (by rfl)
  exact ⟨h.1, h.2.1⟩

/-- C9 (counterexample): with an embedding client that raises, the
retrieval step propagates the exception instead of returning a state —
`embed_question` and `retriever_agent` have no `try/except` around the
embedding call. -/
theorem C9_counterexample :
    retriever_agent embedFailOracle (mkInitialState (str "q") none []) =
      .error (str "ProviderError: embedding failed") := rfl

/-- C9 (amended): the retrieval step is failure-tolerant with respect to
the vector index (`ensure_vector_index`) and the similarity search, which
are individually wrapped in `try/except`; but it returns a state only
provided the embedding client and the subgraph expansion do not raise —
their failures propagate out of `retriever_agent`. -/
theorem C9_retriever_degrades (O : Oracles) (s : GState)
    (hemb : isOkE (O.embed s.question) = true)
    (hexp : ∀ ids, isOkE (O.expand ids 1) = true) :
    isOkE (retriever_agent O s) = true := by
  unfold retriever_agent
  rw [ensure_vector_index_eq]
  dsimp only
  cases he : O.embed s.question with
  | error e => rw [he] at hemb; simp [isOkE] at hemb
  | ok emb =>
    unfold embed_question
    rw [he]
    simp only [Bind.bind, Except.bind, Pure.pure, Except.pure]
    obtain ⟨hits, hss⟩ :=
      similarity_search_ex O { s with query_embedding := emb }
    rw [hss]
    unfold expand_traversal
    dsimp only
    split_ifs with hid
    · simp [Pure.pure, Except.pure, isOkE]
    · cases hx : O.expand (List.map Hit.id hits) 1 with
      | error e =>
        have := hexp (List.map Hit.id hits)
        rw [hx] at this
        simp [isOkE] at this
      | ok g => simp [Bind.bind, Except.bind, Pure.pure, Except.pure, isOkE]

theorem C9_witness :
    isOkE (retriever_agent degradedOracle baseState) = true :=
  C9_retriever_degrades degradedOracle baseState rfl (fun _ => rfl)

/-- C2 (counterexample): in the no-graph-match run (store always returns
`[]` with no error), the decision sequence is NOT
`retrieve, query, execute, refine, execute, answer` and the final answer
is NOT the synthesizer empty-result template: the planner only refines on
a recorded error, so empty results without an error loop through
`execute` until the budget forces `end`. -/
theorem C2_counterexample :
    decisionSeq (runWorkflow oracleA 7 c2init).2 ≠
      [str "retrieve", str "query", str "execute", str "refine",
       str "execute", str "answer"] ∧
    (runWorkflow oracleA 7 c2init).1.finalAnswer? ≠
      some (noResultsTemplate (str "find unicorns")) := by
  constructor
  · decide
  · decide

/-- C2 (amended): for every run whose question has no graph match (every
store execution succeeds with the empty result sequence, the similarity
search finds nothing, and the model emits a fixed non-empty query), the
decision sequence is `retrieve, query, execute, execute, execute,
execute, end` and the final answer is the planner's forced-termination
no-match template — a function of the question only. -/
theorem router_retrieve_iff (s : GState) :
    router_next_action s = str "retriever_agent" ↔
      s.decision = str "retrieve" := by
  unfold router_next_action
  dsimp only
  split_ifs with h1 h2 h3 h4 h5 h6
  · rw [h1]; decide
  · rw [h2]; decide
  · rw [h3]; decide
  · rw [h4]; decide
  · rw [h5]; decide
  · rw [h6]; decide
  · exact iff_of_false (by decide) (fun hh => h1 hh)

theorem router_execute_iff (s : GState) :
    router_next_action s = str "execute_query" ↔
      s.decision = str "execute" := by
  unfold router_next_action
  dsimp only
  split_ifs with h1 h2 h3 h4 h5 h6
  · rw [h1]; decide
  · rw [h2]; decide
  · rw [h3]; decide
  · rw [h4]; decide
  · rw [h5]; decide
  · rw [h6]; decide
  · exact iff_of_false (by decide) (fun hh => h4 hh)

theorem planner_decide_fa (O : Oracles) (s : GState)
    (h : ¬ s.max_steps < s.step + 1) :
    (planner_decide O s).final_answer = s.final_answer := by
  unfold planner_decide
  dsimp only
  rw [if_neg h]
  split_ifs <;>
    simpa [append_message] using
      (planner_policy_fst { s with step := s.step + 1 }).2.2.2.2.2.2.2

theorem planner_decide_budget_forced (O : Oracles) (s : GState)
    (h : s.max_steps < s.step + 1) (hfa : s.final_answer = [])
    (hres : s.neo4j_results.length = 0) :
    (planner_decide O s).final_answer = forcedNoMatchTemplate s.question := by
  unfold planner_decide
  dsimp only
  rw [if_pos h]
  unfold planner_budget_answer
  dsimp only
  rw [if_pos (by simpa [append_message] using hfa), if_pos hres]

theorem runAux_step_end (O : Oracles) (n : Nat) (s : GState) (k : Nat)
    (hd : (planner_decide O s).decision = str "end") :
    runAux O (n + 1) s k =
      (.done (planner_decide O s), [(true, planner_decide O s)]) := by
  conv_lhs => unfold runAux
  dsimp only
  rw [if_pos ((router_END_iff _).mpr hd)]

theorem runAux_step_retrieve (O : Oracles) (n : Nat) (s : GState) (k : Nat)
    (s2 : GState) (hd : (planner_decide O s).decision = str "retrieve")
    (hr : retriever_agent O (planner_decide O s) = .ok s2) :
    runAux O (n + 1) s k =
      ((runAux O n s2 k).1,
        (true, planner_decide O s) :: (false, s2) :: (runAux O n s2 k).2) := by
  have hR : router_next_action (planner_decide O s) = str "retriever_agent" :=
    (router_retrieve_iff _).mpr hd
  conv_lhs => unfold runAux
  dsimp only
  rw [if_neg (by rw [hR]; decide), if_pos hR, hr]

theorem runAux_step_query (O : Oracles) (n : Nat) (s : GState) (k : Nat)
    (s2 : GState) (hd : (planner_decide O s).decision = str "query")
    (hr : cypher_agent O (planner_decide O s) = .ok s2) :
    runAux O (n + 1) s k =
      ((runAux O n s2 k).1,
        (true, planner_decide O s) :: (false, s2) :: (runAux O n s2 k).2) := by
  have hR : router_next_action (planner_decide O s) = str "cypher_agent" :=
    (router_cypher_iff _).mpr hd
  conv_lhs => unfold runAux
  dsimp only
  rw [if_neg (by rw [hR]; decide), if_neg (by rw [hR]; decide), if_pos hR, hr]

theorem runAux_step_execute (O : Oracles) (n : Nat) (s : GState) (k : Nat)
    (hd : (planner_decide O s).decision = str "execute") :
    runAux O (n + 1) s k =
      ((runAux O n (execute_neo4j_query O k (planner_decide O s)).1
          (execute_neo4j_query O k (planner_decide O s)).2).1,
        (true, planner_decide O s) ::
        (false, (execute_neo4j_query O k (planner_decide O s)).1) ::
        (runAux O n (execute_neo4j_query O k (planner_decide O s)).1
          (execute_neo4j_query O k (planner_decide O s)).2).2) := by
  have hR : router_next_action (planner_decide O s) = str "execute_query" :=
    (router_execute_iff _).mpr hd
  conv_lhs => unfold runAux
  dsimp only
  rw [if_neg (by rw [hR]; decide), if_neg (by rw [hR]; decide),
    if_neg (by rw [hR]; decide), if_neg (by rw [hR]; decide), if_pos hR]

theorem emptyMatch_retriever (cq : Str) (t : GState) :
    retriever_agent (emptyMatchOracle cq) t =
      .ok { t with query_embedding := [], similar_nodes := [], subgraph := ⟨some [], some []⟩, context := str "NODES:\nRELATIONSHIPS:" } := rfl

theorem emptyMatch_cypher (cq : Str) (t : GState) :
    cypher_agent (emptyMatchOracle cq) t =
      .ok { t with cypher_query := cq } := rfl

theorem emptyMatch_execute (cq : Str) (k : Nat) (t : GState)
    (h : t.cypher_query ≠ []) :
    execute_neo4j_query (emptyMatchOracle cq) k t =
      ({ t with neo4j_results := [] }, k + 1) := by
  unfold execute_neo4j_query
  dsimp only
  rw [if_neg h]
  rfl
theorem planner_fields_nochange (O : Oracles) (s : GState)
    (hb : ¬ s.max_steps < s.step + 1)
    (hpol : (planner_policy { s with step := s.step + 1 }).1 =
      { s with step := s.step + 1 }) :
    (planner_decide O s).step = s.step + 1 ∧
    (planner_decide O s).max_steps = s.max_steps ∧
    (planner_decide O s).context = s.context ∧
    (planner_decide O s).cypher_query = s.cypher_query ∧
    (planner_decide O s).error = s.error ∧
    (planner_decide O s).neo4j_results = s.neo4j_results ∧
    (planner_decide O s).question = s.question ∧
    (planner_decide O s).final_answer = s.final_answer ∧
    (planner_decide O s).refinement_count = s.refinement_count := by
  have hP := planner_decide_proj O s
  have hfa := planner_decide_fa O s hb
  have hcnt := (planner_decide_in_budget O s hb).2
  exact ⟨hP.1, hP.2.1, hP.2.2.1, hP.2.2.2.1, hP.2.2.2.2.1, hP.2.2.2.2.2.1,
    hP.2.2.2.2.2.2, hfa, by rw [hcnt, hpol]⟩
theorem nmA1_facts (cq q hist : Str) (sid : Option Str) :
    (nmA1 cq q hist sid).step = 1 ∧ (nmA1 cq q hist sid).max_steps = 6 ∧
    (nmA1 cq q hist sid).context = str "NODES:\nRELATIONSHIPS:" ∧
    (nmA1 cq q hist sid).cypher_query = [] ∧
    (nmA1 cq q hist sid).neo4j_results = [] ∧
    (nmA1 cq q hist sid).error = [] ∧
    (nmA1 cq q hist sid).question = q ∧
    (nmA1 cq q hist sid).final_answer = [] ∧
    (nmA1 cq q hist sid).refinement_count = 0 ∧
    (planner_decide (emptyMatchOracle cq)
      (mkInitialState q sid hist)).decision = str "retrieve" := by
  have hb0 : ¬ (mkInitialState q sid hist).max_steps <
      (mkInitialState q sid hist).step + 1 :=
    (by decide : ¬ (6 : Nat) < 0 + 1)
  have hpol := planner_policy_retrieve
    { mkInitialState q sid hist with
        step := (mkInitialState q sid hist).step + 1 } rfl
  have hf := planner_fields_nochange (emptyMatchOracle cq)
    (mkInitialState q sid hist) hb0 hpol.2
  have hd : (planner_decide (emptyMatchOracle cq)
      (mkInitialState q sid hist)).decision = str "retrieve" := by
    rw [(planner_decide_in_budget _ _ hb0).1, hpol.1]
  exact ⟨hf.1, hf.2.1, rfl, hf.2.2.2.1, hf.2.2.2.2.2.1, hf.2.2.2.2.1,
    hf.2.2.2.2.2.2.1, hf.2.2.2.2.2.2.2.1, hf.2.2.2.2.2.2.2.2, hd⟩

theorem nmA2_facts (cq q hist : Str) (sid : Option Str) :
    (nmA2 cq q hist sid).step = 2 ∧ (nmA2 cq q hist sid).max_steps = 6 ∧
    (nmA2 cq q hist sid).context = str "NODES:\nRELATIONSHIPS:" ∧
    (nmA2 cq q hist sid).cypher_query = cq ∧
    (nmA2 cq q hist sid).neo4j_results = [] ∧
    (nmA2 cq q hist sid).error = [] ∧
    (nmA2 cq q hist sid).question = q ∧
    (nmA2 cq q hist sid).final_answer = [] ∧
    (nmA2 cq q hist sid).refinement_count = 0 ∧
    (planner_decide (emptyMatchOracle cq)
      (nmA1 cq q hist sid)).decision = str "query" := by
  obtain ⟨h1, h2, h3, h4, h5, h6, h7, h8, h9, -⟩ := nmA1_facts cq q hist sid
  have hb : ¬ (nmA1 cq q hist sid).max_steps <
      (nmA1 cq q hist sid).step + 1 := by rw [h2, h1]; decide
  have hpol := planner_policy_query
    { nmA1 cq q hist sid with step := (nmA1 cq q hist sid).step + 1 }
    (show (nmA1 cq q hist sid).context ≠ [] by rw [h3]; decide)
    (show (nmA1 cq q hist sid).cypher_query = [] from h4)
  have hf := planner_fields_nochange (emptyMatchOracle cq)
    (nmA1 cq q hist sid) hb hpol.2
  have hd : (planner_decide (emptyMatchOracle cq)
      (nmA1 cq q hist sid)).decision = str "query" := by
    rw [(planner_decide_in_budget _ _ hb).1, hpol.1]
  refine ⟨?_, ?_, ?_, rfl, ?_, ?_, ?_, ?_, ?_, hd⟩
  · show (planner_decide (emptyMatchOracle cq) (nmA1 cq q hist sid)).step = 2
    rw [hf.1, h1]
  · show (planner_decide (emptyMatchOracle cq)
      (nmA1 cq q hist sid)).max_steps = 6
    rw [hf.2.1, h2]
  · show (planner_decide (emptyMatchOracle cq)
      (nmA1 cq q hist sid)).context = str "NODES:\nRELATIONSHIPS:"
    rw [hf.2.2.1, h3]
  · show (planner_decide (emptyMatchOracle cq)
      (nmA1 cq q hist sid)).neo4j_results = []
    rw [hf.2.2.2.2.2.1, h5]
  · show (planner_decide (emptyMatchOracle cq)
      (nmA1 cq q hist sid)).error = []
    rw [hf.2.2.2.2.1, h6]
  · show (planner_decide (emptyMatchOracle cq)
      (nmA1 cq q hist sid)).question = q
    rw [hf.2.2.2.2.2.2.1, h7]
  · show (planner_decide (emptyMatchOracle cq)
      (nmA1 cq q hist sid)).final_answer = []
    rw [hf.2.2.2.2.2.2.2.1, h8]
  · show (planner_decide (emptyMatchOracle cq)
      (nmA1 cq q hist sid)).refinement_count = 0
    rw [hf.2.2.2.2.2.2.2.2, h9]
theorem nmExecStep_facts (cq : Str) (hcq : cq ≠ []) (q : Str) (t : GState)
    (m : Nat) (hstep : t.step = m) (hm : m + 1 ≤ 6) (hmax : t.max_steps = 6)
    (hctx : t.context = str "NODES:\nRELATIONSHIPS:")
    (hcy : t.cypher_query = cq) (hres : t.neo4j_results = [])
    (herr : t.error = []) (hq : t.question = q) (hfa : t.final_answer = [])
    (hcnt : t.refinement_count = 0) :
    ∀ u : GState,
      u = { planner_decide (emptyMatchOracle cq) t with
              neo4j_results := ([] : List Val) } →
      (u.step = m + 1 ∧ u.max_steps = 6 ∧
       u.context = str "NODES:\nRELATIONSHIPS:" ∧ u.cypher_query = cq ∧
       u.neo4j_results = [] ∧ u.error = [] ∧ u.question = q ∧
       u.final_answer = [] ∧ u.refinement_count = 0) ∧
      (planner_decide (emptyMatchOracle cq) t).cypher_query = cq ∧
      (planner_decide (emptyMatchOracle cq) t).decision = str "execute" := by
  have hb : ¬ t.max_steps < t.step + 1 := by rw [hmax, hstep]; omega
  have hpol := planner_policy_execute { t with step := t.step + 1 }
    (show t.context ≠ [] by rw [hctx]; decide)
    (show t.cypher_query ≠ [] by rw [hcy]; exact hcq)
    (show t.neo4j_results.length = 0 by rw [hres]; rfl)
    (fun hco => hco.2 (show t.error = [] from herr))
  have hf := planner_fields_nochange (emptyMatchOracle cq) t hb hpol.2
  have hd : (planner_decide (emptyMatchOracle cq) t).decision =
      str "execute" := by
    rw [(planner_decide_in_budget _ _ hb).1, hpol.1]
  intro u hu
  subst hu
  refine ⟨⟨?_, ?_, ?_, ?_, rfl, ?_, ?_, ?_, ?_⟩, by rw [hf.2.2.2.1, hcy], hd⟩
  · show (planner_decide (emptyMatchOracle cq) t).step = m + 1
    rw [hf.1, hstep]
  · show (planner_decide (emptyMatchOracle cq) t).max_steps = 6
    rw [hf.2.1, hmax]
  · show (planner_decide (emptyMatchOracle cq) t).context =
      str "NODES:\nRELATIONSHIPS:"
    rw [hf.2.2.1, hctx]
  · show (planner_decide (emptyMatchOracle cq) t).cypher_query = cq
    rw [hf.2.2.2.1, hcy]
  · show (planner_decide (emptyMatchOracle cq) t).error = []
    rw [hf.2.2.2.2.1, herr]
  · show (planner_decide (emptyMatchOracle cq) t).question = q
    rw [hf.2.2.2.2.2.2.1, hq]
  · show (planner_decide (emptyMatchOracle cq) t).final_answer = []
    rw [hf.2.2.2.2.2.2.2.1, hfa]
  · show (planner_decide (emptyMatchOracle cq) t).refinement_count = 0
    rw [hf.2.2.2.2.2.2.2.2, hcnt]
/-- C2 (amended): for every run whose question has no graph match (every
store execution succeeds with the empty result sequence, the similarity
search finds nothing, and the model emits a fixed non-empty query), the
decision sequence is `retrieve, query, execute, execute, execute,
execute, end` — the planner never chooses `refine`, because it only
refines on a recorded error — and the final answer is the planner
forced-termination no-match template, a function of the question only. -/
theorem C2_no_match_run (cq : Str) (hcq : cq ≠ []) (q hist : Str)
    (sid : Option Str) :
    decisionSeq (runWorkflow (emptyMatchOracle cq) 7
        (mkInitialState q sid hist)).2 =
      [str "retrieve", str "query", str "execute", str "execute",
       str "execute", str "execute", str "end"] ∧
    (runWorkflow (emptyMatchOracle cq) 7
        (mkInitialState q sid hist)).1.finalAnswer? =
      some (forcedNoMatchTemplate q) := by
  obtain ⟨a1s, a1m, a1c, a1cy, a1r, a1e, a1q, a1f, a1n, hd1⟩ :=
    nmA1_facts cq q hist sid
  obtain ⟨a2s, a2m, a2c, a2cy, a2r, a2e, a2q, a2f, a2n, hd2⟩ :=
    nmA2_facts cq q hist sid
  obtain ⟨⟨a3s, a3m, a3c, a3cy, a3r, a3e, a3q, a3f, a3n⟩, p3cy, hd3⟩ :=
    nmExecStep_facts cq hcq q (nmA2 cq q hist sid) 2 a2s (by omega) a2m a2c
      a2cy a2r a2e a2q a2f a2n (nmA3 cq q hist sid) rfl
  obtain ⟨⟨a4s, a4m, a4c, a4cy, a4r, a4e, a4q, a4f, a4n⟩, p4cy, hd4⟩ :=
    nmExecStep_facts cq hcq q (nmA3 cq q hist sid) 3 a3s (by omega) a3m a3c
      a3cy a3r a3e a3q a3f a3n (nmA4 cq q hist sid) rfl
  obtain ⟨⟨a5s, a5m, a5c, a5cy, a5r, a5e, a5q, a5f, a5n⟩, p5cy, hd5⟩ :=
    nmExecStep_facts cq hcq q (nmA4 cq q hist sid) 4 a4s (by omega) a4m a4c
      a4cy a4r a4e a4q a4f a4n (nmA5 cq q hist sid) rfl
  obtain ⟨⟨a6s, a6m, a6c, a6cy, a6r, a6e, a6q, a6f, a6n⟩, p6cy, hd6⟩ :=
    nmExecStep_facts cq hcq q (nmA5 cq q hist sid) 5 a5s (by omega) a5m a5c
      a5cy a5r a5e a5q a5f a5n (nmA6 cq q hist sid) rfl
  have hb7 : (nmA6 cq q hist sid).max_steps < (nmA6 cq q hist sid).step + 1 := by
    rw [a6m, a6s]; decide
  have hd7 : (planner_decide (emptyMatchOracle cq)
      (nmA6 cq q hist sid)).decision = str "end" :=
    planner_decide_budget_end _ _ hb7
  have hfa7 : (planner_decide (emptyMatchOracle cq)
      (nmA6 cq q hist sid)).final_answer =
      forcedNoMatchTemplate (nmA6 cq q hist sid).question :=
    planner_decide_budget_forced _ _ hb7 a6f (by rw [a6r]; rfl)
  have hr1 : retriever_agent (emptyMatchOracle cq)
      (planner_decide (emptyMatchOracle cq) (mkInitialState q sid hist)) =
      .ok (nmA1 cq q hist sid) := emptyMatch_retriever cq _
  have hr2 : cypher_agent (emptyMatchOracle cq)
      (planner_decide (emptyMatchOracle cq) (nmA1 cq q hist sid)) =
      .ok (nmA2 cq q hist sid) := emptyMatch_cypher cq _
  have hx3 : execute_neo4j_query (emptyMatchOracle cq) 0
      (planner_decide (emptyMatchOracle cq) (nmA2 cq q hist sid)) =
      (nmA3 cq q hist sid, 0 + 1) :=
    emptyMatch_execute cq 0 _ (by rw [p3cy]; exact hcq)
  have hx4 : execute_neo4j_query (emptyMatchOracle cq) (0 + 1)
      (planner_decide (emptyMatchOracle cq) (nmA3 cq q hist sid)) =
      (nmA4 cq q hist sid, 0 + 1 + 1) :=
    emptyMatch_execute cq (0 + 1) _ (by rw [p4cy]; exact hcq)
  have hx5 : execute_neo4j_query (emptyMatchOracle cq) (0 + 1 + 1)
      (planner_decide (emptyMatchOracle cq) (nmA4 cq q hist sid)) =
      (nmA5 cq q hist sid, 0 + 1 + 1 + 1) :=
    emptyMatch_execute cq (0 + 1 + 1) _ (by rw [p5cy]; exact hcq)
  have hx6 : execute_neo4j_query (emptyMatchOracle cq) (0 + 1 + 1 + 1)
      (planner_decide (emptyMatchOracle cq) (nmA5 cq q hist sid)) =
      (nmA6 cq q hist sid, 0 + 1 + 1 + 1 + 1) :=
    emptyMatch_execute cq (0 + 1 + 1 + 1) _ (by rw [p6cy]; exact hcq)
  have hRUN : runAux (emptyMatchOracle cq) 7 (mkInitialState q sid hist) 0 =
      (RunOutcome.done (planner_decide (emptyMatchOracle cq)
        (nmA6 cq q hist sid)),
       [(true, planner_decide (emptyMatchOracle cq)
          (mkInitialState q sid hist)),
        (false, nmA1 cq q hist sid),
        (true, planner_decide (emptyMatchOracle cq) (nmA1 cq q hist sid)),
        (false, nmA2 cq q hist sid),
        (true, planner_decide (emptyMatchOracle cq) (nmA2 cq q hist sid)),
        (false, nmA3 cq q hist sid),
        (true, planner_decide (emptyMatchOracle cq) (nmA3 cq q hist sid)),
        (false, nmA4 cq q hist sid),
        (true, planner_decide (emptyMatchOracle cq) (nmA4 cq q hist sid)),
        (false, nmA5 cq q hist sid),
        (true, planner_decide (emptyMatchOracle cq) (nmA5 cq q hist sid)),
        (false, nmA6 cq q hist sid),
        (true, planner_decide (emptyMatchOracle cq)
          (nmA6 cq q hist sid))]) := by
    rw [(show (7 : Nat) = 6 + 1 by rfl),
      runAux_step_retrieve _ 6 _ 0 _ hd1 hr1]
    rw [(show (6 : Nat) = 5 + 1 by rfl),
      runAux_step_query _ 5 _ 0 _ hd2 hr2]
    rw [(show (5 : Nat) = 4 + 1 by rfl),
      runAux_step_execute _ 4 _ 0 hd3, hx3]
    dsimp only
    rw [(show (4 : Nat) = 3 + 1 by rfl),
      runAux_step_execute _ 3 _ (0 + 1) hd4, hx4]
    dsimp only
    rw [(show (3 : Nat) = 2 + 1 by rfl),
      runAux_step_execute _ 2 _ (0 + 1 + 1) hd5, hx5]
    dsimp only
    rw [(show (2 : Nat) = 1 + 1 by rfl),
      runAux_step_execute _ 1 _ (0 + 1 + 1 + 1) hd6, hx6]
    dsimp only
    rw [(show (1 : Nat) = 0 + 1 by rfl),
      runAux_step_end _ 0 _ (0 + 1 + 1 + 1 + 1) hd7]
  constructor
  · show decisionSeq (runAux (emptyMatchOracle cq) 7
      (mkInitialState q sid hist) 0).2 = _
    rw [hRUN]
    simp [decisionSeq, hd1, hd2, hd3, hd4, hd5, hd6, hd7]
  · show (runAux (emptyMatchOracle cq) 7
      (mkInitialState q sid hist) 0).1.finalAnswer? = _
    rw [hRUN]
    show some _ = _
    rw [hfa7, a6q]

theorem C2_witness :
    decisionSeq (runWorkflow (emptyMatchOracle (str "MATCH (n) RETURN n")) 7
        (mkInitialState (str "find unicorns") none [])).2 =
      [str "retrieve", str "query", str "execute", str "execute",
       str "execute", str "execute", str "end"] :=
  (C2_no_match_run (str "MATCH (n) RETURN n") (by decide)
    (str "find unicorns") [] none).1

theorem expand_traversal_caps (O : Oracles) (s s2 : GState)
    (h : expand_traversal O s = .ok s2) :
    s2.subgraph.nodesD.length ≤ 20 ∧
    s2.subgraph.relationshipsD.length ≤ 30 := by
  unfold expand_traversal at h
  dsimp only at h
  split_ifs at h with hids
  · simp only [Pure.pure, Except.pure, Except.ok.injEq] at h
    subst h
    exact ⟨by simp [Subgraph.nodesD], by simp [Subgraph.relationshipsD]⟩
  · cases he : O.expand (s.similar_nodes.map Hit.id) 1 with
    | error err => rw [he] at h; simp [Bind.bind, Except.bind] at h
    | ok g =>
      rw [he] at h
      simp only [Bind.bind, Except.bind, Pure.pure, Except.pure,
        Except.ok.injEq] at h
      subst h
      constructor
      · cases hn : g.nodes? with
        | none =>
          cases hr : g.relationships? <;>
            simp [Subgraph.nodesD, hn, hr]
        | some ns =>
          cases hr : g.relationships? <;>
            simp [Subgraph.nodesD, hn, hr, List.length_take]
      · cases hn : g.nodes? with
        | none =>
          cases hr : g.relationships? <;>
            simp [Subgraph.relationshipsD, hn, hr, List.length_take]
        | some ns =>
          cases hr : g.relationships? <;>
            simp [Subgraph.relationshipsD, hn, hr, List.length_take]

theorem build_subgraph_context_subgraph (s : GState) :
    (build_subgraph_context s).subgraph = s.subgraph := rfl

theorem build_subgraph_context_len (s : GState) :
    (build_subgraph_context s).context.length ≤ 4015 := by
  unfold build_subgraph_context
  dsimp only
  split_ifs with h
  · rw [List.length_append, List.length_take]
    have h15 : (str "... (truncated)").length = 15 := rfl
    have hmin := Nat.min_le_left 4000
      (List.intercalate (str "\n")
        (str "NODES:" :: List.map nodeLine (List.take 20 s.subgraph.nodesD) ++
          str "RELATIONSHIPS:" ::
            List.map relLine (List.take 30 s.subgraph.relationshipsD))).length
    omega
  · omega

/-- C4 (amended): after every retrieval step, the stored subgraph has at
most 20 nodes and 30 relationships; the rendered context has length at
most 4015 = 4000 + 15: the truncation keeps 4000 characters and appends
the fixed 15-character `"... (truncated)"` marker, so the 4000-character
bound claimed by the specification is exceeded by exactly that marker. -/
theorem C4_retrieval_caps (O : Oracles) (s s2 : GState)
    (h : retriever_agent O s = .ok s2) :
    s2.subgraph.nodesD.length ≤ 20 ∧
    s2.subgraph.relationshipsD.length ≤ 30 ∧
    s2.context.length ≤ 4015 := by
  unfold retriever_agent at h
  rw [ensure_vector_index_eq] at h
  dsimp only at h
  cases hemb : embed_question O s with
  | error e => rw [hemb] at h; simp [Bind.bind, Except.bind] at h
  | ok sB =>
    rw [hemb] at h
    simp only [Bind.bind, Except.bind] at h
    obtain ⟨hits, hss⟩ := similarity_search_ex O sB
    rw [hss] at h
    cases hexp : expand_traversal O { sB with similar_nodes := hits } with
    | error err => rw [hexp] at h; simp at h
    | ok sC =>
      rw [hexp] at h
      simp only [Pure.pure, Except.pure, Except.ok.injEq] at h
      subst h
      obtain ⟨hn, hr⟩ := expand_traversal_caps O _ _ hexp
      refine ⟨?_, ?_, build_subgraph_context_len sC⟩
      · rw [show (build_subgraph_context sC).subgraph = sC.subgraph from rfl]
        exact hn
      · rw [show (build_subgraph_context sC).subgraph = sC.subgraph from rfl]
        exact hr

theorem C4_witness :
    ((retriever_agent oracleA baseState).toOption.getD
        baseState).subgraph.nodesD.length ≤ 20 ∧
    ((retriever_agent oracleA baseState).toOption.getD
        baseState).subgraph.relationshipsD.length ≤ 30 ∧
    ((retriever_agent oracleA baseState).toOption.getD
        baseState).context.length ≤ 4015 :=
  C4_retrieval_caps oracleA baseState _ rfl

/-- C4 (counterexample): a store node whose identifier has 4001 characters
drives the rendered context to 4015 characters — above the claimed
4000-character cap — because the truncation appends a 15-character marker
after cutting at 4000. -/
theorem C4_counterexample :
    retriever_agent longIdOracle baseState = .ok c4state ∧
    c4state.context.length = 4015 ∧ 4000 < c4state.context.length := by
  have hbig : bigId.length = 4001 := by
    rw [show bigId = List.replicate 4001 (Char.ofNat 97) from rfl,
      List.length_replicate]
  have hnl : (nodeLine bigNode).length = 4012 := by
    show (str "- (" ++ bigId ++ str ":" ++ str "L" ++ str " \x7b " ++ [] ++
      str " \x7d)").length = 4012
    simp only [List.length_append]
    rw [hbig]
    decide
  have hpre : (List.intercalate (str "\n")
      [str "NODES:", nodeLine bigNode, str "RELATIONSHIPS:"]).length =
      4034 := by
    show (str "NODES:" ++ (str "\n" ++ (nodeLine bigNode ++ (str "\n" ++
      (str "RELATIONSHIPS:" ++ []))))).length = 4034
    simp only [List.length_append]
    rw [hnl]
    decide
  have hc4 : c4state = build_subgraph_context c4pre := rfl
  have e0 : ((str "NODES:" ::
      List.map nodeLine (List.take 20 c4pre.subgraph.nodesD)) ++
        str "RELATIONSHIPS:" ::
          List.map relLine (List.take 30 c4pre.subgraph.relationshipsD)) =
      [str "NODES:", nodeLine bigNode, str "RELATIONSHIPS:"] := rfl
  have hlen : c4state.context.length = 4015 := by
    rw [hc4]
    unfold build_subgraph_context
    dsimp only
    rw [e0, if_pos (by rw [hpre]; decide)]
    rw [List.length_append, List.length_take, hpre]
    decide
  exact ⟨rfl, hlen, by rw [hlen]; decide⟩

/-- C10: `execute_neo4j_query` writes `error` only on a store failure — a
successful execution only replaces `neo4j_results` and an absent query
leaves the state untouched — so a run can end with a non-empty result
sequence, a synthesized answer, and a stale non-empty `error` from an
earlier failed execution; the stale-error run exhibits this, and the
operation response surfaces the stale error next to the answer. -/
theorem C10_error_only_on_failure :
    (∀ (O : Oracles) (k : Nat) (s : GState) (r : List Val),
      s.cypher_query ≠ [] → O.execQuery k s.cypher_query = .ok r →
      execute_neo4j_query O k s = ({ s with neo4j_results := r }, k + 1)) ∧
    (∀ (O : Oracles) (k : Nat) (s : GState) (e : Err),
      s.cypher_query ≠ [] → O.execQuery k s.cypher_query = .error e →
      execute_neo4j_query O k s = ({ s with error := e }, k + 1)) ∧
    (∀ (O : Oracles) (k : Nat) (s : GState),
      s.cypher_query = [] → execute_neo4j_query O k s = (s, k)) ∧
    decisionSeq (runWorkflow staleErrorOracle 7 staleInit).2 =
      [str "retrieve", str "query", str "execute", str "refine",
       str "execute", str "execute", str "end"] ∧
    (runWorkflow staleErrorOracle 7 staleInit).1.finalState? =
      some staleFinal ∧
    staleFinal.error = str "E2" ∧
    staleFinal.neo4j_results ≠ [] ∧
    staleFinal.final_answer = str "One matching patient: Ana." ∧
    (mkResponse staleFinal).error = str "E2" ∧
    (mkResponse staleFinal).answer = str "One matching patient: Ana." := by
  refine ⟨?_, ?_, ?_, by decide, rfl, rfl, ?_, rfl, rfl, rfl⟩
  · intro O k s r hc hx
    unfold execute_neo4j_query
    dsimp only
    rw [if_neg hc, hx]
  · intro O k s e hc hx
    unfold execute_neo4j_query
    dsimp only
    rw [if_neg hc, hx]
  · intro O k s hc
    unfold execute_neo4j_query
    dsimp only
    rw [if_pos hc]
  · rw [show staleFinal.neo4j_results =
      [Val.dict [(str "firstName", Val.str (str "Ana"))]] from rfl]
    exact List.cons_ne_nil _ _

theorem C10_witness :
    execute_neo4j_query oracleA 0 { baseState with cypher_query := str "Q" } =
      ({ baseState with cypher_query := str "Q", neo4j_results := [] },
        0 + 1) :=
  C10_error_only_on_failure.1 oracleA 0
    { baseState with cypher_query := str "Q" } [] (by decide) rfl
